import Mathlib

/-!
Verification of the Vantage generated-code pipeline (GeminiService, GeminiCodeFixer,
CodeFixer, AppValidator, RuntimeTester) against its natural-language specification.

The TypeScript sources are shallowly embedded: strings are `String`/`List Char`,
JavaScript regular-expression operations are embedded either through a small
backtracking matcher (`RE`, implementing ECMAScript ordered-alternation /
greedy-lazy backtracking semantics) or, for simple linear patterns, through
direct character scanners.  Recursion over text uses an explicit fuel argument
(always instantiated large enough to be non-limiting) so that every definition
is a computable `def`.
-/

set_option maxRecDepth 8192

namespace VV

/-- JavaScript `\s` (whitespace) character class, restricted to the code points
that can occur in this pipeline's ASCII text plus NBSP/BOM. -/
def wsChar (c : Char) : Bool :=
  c = ' ' || c = '\t' || c = '\n' || c = '\r' || c = '\x0b' || c = '\x0c' ||
  c = '\xa0' || c = '﻿'

/-- JavaScript `\w` character class `[A-Za-z0-9_]`. -/
def wordChar (c : Char) : Bool :=
  ('a' ≤ c && c ≤ 'z') || ('A' ≤ c && c ≤ 'Z') || ('0' ≤ c && c ≤ '9') || c = '_'

/-- JavaScript `.` matches anything but a line terminator. -/
def dotChar (c : Char) : Bool :=
  !(c = '\n' || c = '\r' || c = ' ' || c = ' ')

/-- ASCII lower-casing, as used for the case-insensitive (`i`) regex flag. -/
def lcChar (c : Char) : Char :=
  if 'A' ≤ c && c ≤ 'Z' then Char.ofNat (c.toNat + 32) else c

def strL (s : String) : List Char := s.data

def ofL (l : List Char) : String := ⟨l⟩

/-- Is `p` a prefix of `l` (char-exact)? -/
def isPrefL : List Char → List Char → Bool
  | [], _ => true
  | _ :: _, [] => false
  | p :: ps, c :: cs => p = c && isPrefL ps cs

/-- Drop a literal prefix, if present. -/
def eatLit : List Char → List Char → Option (List Char)
  | [], cs => some cs
  | _ :: _, [] => none
  | p :: ps, c :: cs => if p = c then eatLit ps cs else none

/-- Drop a literal prefix, ASCII-case-insensitively, if present. -/
def eatLitCI : List Char → List Char → Option (List Char)
  | [], cs => some cs
  | _ :: _, [] => none
  | p :: ps, c :: cs => if lcChar p = lcChar c then eatLitCI ps cs else none

/-- Substring containment (JS `String.prototype.includes`). -/
def containsSubL (needle : List Char) : List Char → Bool
  | [] => isPrefL needle []
  | c :: cs => isPrefL needle (c :: cs) || containsSubL needle cs

def containsSub (hay needle : String) : Bool := containsSubL (strL needle) (strL hay)

/-- Case-insensitive substring containment. -/
def containsSubCI (hay needle : String) : Bool :=
  containsSubL (List.map lcChar (strL needle)) (List.map lcChar (strL hay))

def countCharL (c : Char) (l : List Char) : Nat := (l.filter (fun x => x = c)).length

/-- JS `String.prototype.trim` (both ends). -/
def jsTrimL (l : List Char) : List Char :=
  ((l.dropWhile wsChar).reverse.dropWhile wsChar).reverse

def jsTrim (s : String) : String := ofL (jsTrimL (strL s))

/-- JS `String.prototype.trimEnd`. -/
def jsTrimEndL (l : List Char) : List Char := (l.reverse.dropWhile wsChar).reverse

/-- JS `String.prototype.trimStart`. -/
def jsTrimStartL (l : List Char) : List Char := l.dropWhile wsChar

/-- JS `s.slice(-n)`: the last `n` characters (all of `s` if shorter). -/
def takeRightL (n : Nat) (l : List Char) : List Char := l.drop (l.length - n)

/-- Split on `'\n'` (JS `s.split('\n')`). -/
def splitNlL (fuel : Nat) (l : List Char) : List (List Char) :=
  match fuel with
  | 0 => [l]
  | fuel + 1 =>
    match l.span (fun c => !(c = '\n')) with
    | (line, []) => [line]
    | (line, _ :: rest) => line :: splitNlL fuel rest

def splitNl (s : String) : List (List Char) := splitNlL (strL s).length (strL s)

/-- Join with `'\n'` (JS `arr.join('\n')`). -/
def joinNl : List (List Char) → List Char
  | [] => []
  | [l] => l
  | l :: ls => l ++ '\n' :: joinNl ls

/-- Does the list end with the given suffix? -/
def endsWithL (suf l : List Char) : Bool := isPrefL suf.reverse l.reverse

/-- JS `String.prototype.startsWith` (kernel-reducible). -/
def strStartsWith (s p : String) : Bool := isPrefL (strL p) (strL s)

/-- JS `String.prototype.endsWith` (kernel-reducible). -/
def strEndsWith (s p : String) : Bool := isPrefL (strL p).reverse (strL s).reverse

/-- JS `Array.prototype.join` with a separator (kernel-reducible). -/
def joinSep (sep : String) : List String → String
  | [] => ""
  | [x] => x
  | x :: xs => x ++ sep ++ joinSep sep xs

end VV

namespace VV

/-! ### A small ECMAScript-faithful regex matcher

The repair pipeline is driven by JavaScript regex literals.  We embed each
regex as an `RE` syntax tree and run it with a backtracking matcher that
implements ECMAScript semantics: ordered alternation, greedy/lazy
quantifiers with the no-empty-iteration rule, capture groups,
lookahead, fixed-string negative lookbehind, `\b`, and the `^`/`$`
anchors (no `m` flag; the few multiline patterns are embedded as direct
scanners below).  `fuel` bounds recursion depth and is always chosen
large enough to be non-limiting. -/

/-- Atom of a regex character class. -/
inductive CC where
  | one (c : Char)
  | range (lo hi : Char)
  | ws
  | word
  | digit
  deriving Repr, DecidableEq

def ccMatch (a : CC) (c : Char) : Bool :=
  match a with
  | .one x => c = x
  | .range lo hi => lo ≤ c && c ≤ hi
  | .ws => wsChar c
  | .word => wordChar c
  | .digit => c.isDigit

/-- Regex syntax.  `lazy = true` marks non-greedy quantifiers. -/
inductive RE where
  | eps
  | ch (c : Char)
  | chI (c : Char)
  | cls (neg : Bool) (items : List CC)
  | dot
  | anyc
  | seq (a b : RE)
  | alt (a b : RE)
  | star (lazy : Bool) (a : RE)
  | plus (lazy : Bool) (a : RE)
  | opt (lazy : Bool) (a : RE)
  | rep2 (a : RE)
  | grp (i : Nat) (a : RE)
  | ahead (neg : Bool) (a : RE)
  | nbehindStr (s : String)
  | bos
  | eos
  | wordB
  deriving Repr

/-- Capture-group environment: later bindings shadow earlier ones. -/
abbrev Groups := List (Nat × List Char)

def gget (g : Groups) (i : Nat) : Option (List Char) :=
  (g.find? (fun p => p.1 = i)).map Prod.snd

/-- The backtracking matcher, in continuation-passing style.  `pre` is the
reversed text to the left of the current position (used by `\b`, `^` and
lookbehind), `rest` the text to the right. -/
def mrun : Nat → RE → List Char → List Char → Groups →
    (List Char → List Char → Groups → Option (List Char × List Char × Groups)) →
    Option (List Char × List Char × Groups)
  | 0, _, _, _, _, _ => none
  | fuel + 1, re, pre, rest, g, k =>
    match re with
    | .eps => k pre rest g
    | .ch c =>
      match rest with
      | x :: xs => if x = c then k (x :: pre) xs g else none
      | [] => none
    | .chI c =>
      match rest with
      | x :: xs => if lcChar x = lcChar c then k (x :: pre) xs g else none
      | [] => none
    | .cls neg items =>
      match rest with
      | x :: xs => if (items.any (fun a => ccMatch a x)) != neg then k (x :: pre) xs g else none
      | [] => none
    | .dot =>
      match rest with
      | x :: xs => if dotChar x then k (x :: pre) xs g else none
      | [] => none
    | .anyc =>
      match rest with
      | x :: xs => k (x :: pre) xs g
      | [] => none
    | .seq a b => mrun fuel a pre rest g (fun p2 r2 g2 => mrun fuel b p2 r2 g2 k)
    | .alt a b =>
      match mrun fuel a pre rest g k with
      | some r => some r
      | none => mrun fuel b pre rest g k
    | .star lz a =>
      if lz then
        match k pre rest g with
        | some r => some r
        | none =>
          mrun fuel a pre rest g (fun p2 r2 g2 =>
            if r2.length = rest.length then none
            else mrun fuel (.star lz a) p2 r2 g2 k)
      else
        match mrun fuel a pre rest g (fun p2 r2 g2 =>
            if r2.length = rest.length then none
            else mrun fuel (.star lz a) p2 r2 g2 k) with
        | some r => some r
        | none => k pre rest g
    | .plus lz a => mrun fuel (.seq a (.star lz a)) pre rest g k
    | .opt lz a =>
      if lz then
        match k pre rest g with
        | some r => some r
        | none => mrun fuel a pre rest g k
      else
        match mrun fuel a pre rest g k with
        | some r => some r
        | none => k pre rest g
    | .rep2 a => mrun fuel (.seq a (.seq a (.star false a))) pre rest g k
    | .grp i a =>
      mrun fuel a pre rest g (fun p2 r2 g2 =>
        k p2 r2 ((i, rest.take (rest.length - r2.length)) :: g2))
    | .ahead neg a =>
      match mrun fuel a pre rest g (fun p2 r2 g2 => some (p2, r2, g2)) with
      | some _ => if neg then none else k pre rest g
      | none => if neg then k pre rest g else none
    | .nbehindStr s =>
      if isPrefL (strL s).reverse pre then none else k pre rest g
    | .bos => if pre.isEmpty then k pre rest g else none
    | .eos => if rest.isEmpty then k pre rest g else none
    | .wordB =>
      let lw := match pre with | c :: _ => wordChar c | [] => false
      let rw := match rest with | c :: _ => wordChar c | [] => false
      if lw != rw then k pre rest g else none

/-- Fuel bound that is ample for every pattern in this development. -/
def mfuel (rest : List Char) : Nat := 8 * rest.length + 512

/-- Result of locating one match. -/
structure MatchRes where
  idx : Nat
  matched : List Char
  after : List Char
  groups : Groups
  deriving Repr

/-- Attempt a match anchored at the current position. -/
def mAt (re : RE) (pre rest : List Char) : Option (List Char × Groups) :=
  match mrun (mfuel rest) re pre rest [] (fun p2 r2 g2 => some (p2, r2, g2)) with
  | some (_, r2, g2) => some (r2, g2)
  | none => none

/-- Leftmost match at or after the current position (JS regex search). -/
def reFindFrom : Nat → RE → List Char → List Char → Nat → Option MatchRes
  | fuel, re, pre, rest, idx =>
    match mAt re pre rest with
    | some (r2, g2) => some ⟨idx, rest.take (rest.length - r2.length), r2, g2⟩
    | none =>
      match fuel, rest with
      | _, [] => none
      | 0, _ => none
      | fuel + 1, c :: cs => reFindFrom fuel re (c :: pre) cs (idx + 1)

/-- First match in a string (JS `s.match(re)` without the `g` flag / `re.test`). -/
def reFirst (re : RE) (s : String) : Option MatchRes :=
  reFindFrom (strL s).length re [] (strL s) 0

def reTest (re : RE) (s : String) : Bool := (reFirst re s).isSome

/-- Group `i` of a match as a string (`""` for an unmatched group; every
replacement function below only reads groups that its pattern always binds). -/
def mgrp (m : MatchRes) (i : Nat) : String := ofL ((gget m.groups i).getD [])

/-- JS `s.replace(re, f)` with the `g` flag: repeatedly take the leftmost
match, emit the replacement, and resume after the match (advancing one
character after an empty match, per ECMAScript). -/
def reReplAllL : Nat → RE → (MatchRes → List Char) → List Char → List Char → Nat → List Char
  | 0, _, _, _, rest, _ => rest
  | fuel + 1, re, f, pre, rest, idx =>
    match mAt re pre rest with
    | some (r2, g2) =>
      let m : MatchRes := ⟨idx, rest.take (rest.length - r2.length), r2, g2⟩
      if m.matched.isEmpty then
        match rest with
        | [] => f m
        | c :: cs => f m ++ c :: reReplAllL fuel re f (c :: pre) cs (idx + 1)
      else
        f m ++ reReplAllL fuel re f (m.matched.reverse ++ pre) r2 (idx + m.matched.length)
    | none =>
      match rest with
      | [] => []
      | c :: cs => c :: reReplAllL fuel re f (c :: pre) cs (idx + 1)

def reReplAll (re : RE) (f : MatchRes → String) (s : String) : String :=
  ofL (reReplAllL ((strL s).length + 1) re (fun m => strL (f m)) [] (strL s) 0)

/-- All matches, in scan order (JS `matchAll` / counting `match(/…/g)`). -/
def reAllL : Nat → RE → List Char → List Char → Nat → List MatchRes
  | 0, _, _, _, _ => []
  | fuel + 1, re, pre, rest, idx =>
    match reFindFrom rest.length re pre rest idx with
    | none => []
    | some m =>
      if m.matched.isEmpty then
        match m.after with
        | [] => [m]
        | c :: cs => m :: reAllL fuel re (c :: (rest.take (m.idx - idx)).reverse ++ pre) cs (m.idx + 1)
      else
        m :: reAllL fuel re (m.matched.reverse ++ (rest.take (m.idx - idx)).reverse ++ pre) m.after (m.idx + m.matched.length)

def reAll (re : RE) (s : String) : List MatchRes :=
  reAllL ((strL s).length + 1) re [] (strL s) 0

/-! Builder shorthands used when transcribing the source regex literals. -/

def rstr (s : String) : RE := (strL s).foldr (fun c acc => .seq (.ch c) acc) .eps

def rstrI (s : String) : RE := (strL s).foldr (fun c acc => .seq (.chI c) acc) .eps

def rseq (l : List RE) : RE := l.foldr .seq .eps

def raltn : List RE → RE
  | [] => .eps
  | [r] => r
  | r :: rs => .alt r (raltn rs)

def rQuote : RE := .cls false [.one '\x27', .one '"']

def rWsStar : RE := .star false (.cls false [.ws])

def rWsPlus : RE := .plus false (.cls false [.ws])

end VV

namespace VV

/-! ### Substring / scanning helpers shared by the service models -/

/-- Index of the first occurrence of `needle`, if any. -/
def findSubIdxL (needle : List Char) : List Char → Option Nat
  | [] => if isPrefL needle [] then some 0 else none
  | c :: cs => if isPrefL needle (c :: cs) then some 0 else (findSubIdxL needle cs).map (· + 1)

/-- One attempt to match the string-literal regex `q[^q\\]*(\\.[^q\\]*)*q` whose
opening delimiter has just been consumed; returns the total number of
characters of the literal (both delimiters included).  A backslash must be
followed by a non-line-terminator (the `.` in `\\.`), otherwise no match
starts at this delimiter. -/
def quoteSpanL (q : Char) : Nat → List Char → Nat → Option Nat
  | 0, _, _ => none
  | fuel + 1, cs, acc =>
    match cs.span (fun c => !(c = q || c = '\\')) with
    | (_, []) => none
    | (body, c :: cs2) =>
      if c = q then some (acc + body.length + 1)
      else
        match cs2 with
        | [] => none
        | d :: cs3 =>
          if dotChar d then quoteSpanL q fuel cs3 (acc + body.length + 2) else none

/-- JS `s.replace(/q[^q\\]*(\\.[^q\\]*)*q/g, "qq")`: blank every well-formed
`q`-delimited literal, keeping the delimiters. -/
def blankQuotedGo (q : Char) : Nat → List Char → List Char
  | 0, cs => cs
  | fuel + 1, cs =>
    match cs with
    | [] => []
    | c :: rest =>
      if c = q then
        match quoteSpanL q (rest.length + 1) rest 1 with
        | some n => q :: q :: blankQuotedGo q fuel (cs.drop n)
        | none => c :: blankQuotedGo q fuel rest
      else c :: blankQuotedGo q fuel rest

def blankQuotedL (q : Char) (cs : List Char) : List Char := blankQuotedGo q cs.length cs

/-- JS `s.replace(/\/\/.*$/gm, '')`: drop from each `//` to the end of its
line (`.` stops at any line terminator, where `$`(m) then matches). -/
def stripLineCommentsGo : Nat → List Char → List Char
  | 0, cs => cs
  | _ + 1, [] => []
  | fuel + 1, c :: rest =>
    if isPrefL ['/', '/'] (c :: rest) then
      stripLineCommentsGo fuel ((c :: rest).dropWhile dotChar)
    else c :: stripLineCommentsGo fuel rest

/-- JS `s.replace(/\/\*[\s\S]*?\*\//g, '')`: drop each `/*`…`*/` block
(lazy: up to the first `*/`). -/
def stripBlockCommentsGo : Nat → List Char → List Char
  | 0, cs => cs
  | _ + 1, [] => []
  | fuel + 1, c :: rest =>
    if isPrefL ['/', '*'] (c :: rest) then
      match findSubIdxL ['*', '/'] (rest.drop 1) with
      | some i => stripBlockCommentsGo fuel ((rest.drop 1).drop (i + 2))
      | none => c :: stripBlockCommentsGo fuel rest
    else c :: stripBlockCommentsGo fuel rest

end VV

namespace GeminiService

open VV

/-- `GeminiServiceClass.hasBalancedBrackets` (GeminiService.ts:784): blank
`'…'`, `"…"`, `` `…` `` literals, strip `//` and `/*…*/` comments, then compare
the counts of `{}`, `()`, `[]`. -/
def hasBalancedBrackets (code : String) : Bool :=
  let c1 := blankQuotedL '\x27' (strL code)
  let c2 := blankQuotedL '"' c1
  let c3 := blankQuotedL '\x60' c2
  let c4 := stripLineCommentsGo c3.length c3
  let c5 := stripBlockCommentsGo c4.length c4
  countCharL '\x7b' c5 = countCharL '\x7d' c5 &&
    (countCharL '(' c5 = countCharL ')' c5 &&
      countCharL '[' c5 = countCharL ']' c5)

/-- `GeminiServiceClass.validateGeneratedCode` (GeminiService.ts:754):
entry-point marker, bracket balance, a `return`, and no denylisted construct
(`eval(`, `<script` case-insensitively, `innerHTML`). -/
def validateGeneratedCode (code : String) : Bool :=
  containsSub code "export default function App" &&
    (hasBalancedBrackets code &&
      (containsSub code "return" &&
        (!containsSub code "eval(" &&
          (!containsSubCI code "<script" && !containsSub code "innerHTML"))))

/-- Outcome of the raw-stage validation (`{ isValid, reason }`). -/
structure GemValidation where
  isValid : Bool
  reason : String
  deriving Repr, DecidableEq

/-- `<([A-Z][a-zA-Z0-9]*)[^>]*>` -/
def reJsxOpenTag : RE :=
  rseq [.ch '<',
    .grp 1 (rseq [.cls false [.range 'A' 'Z'],
      .star false (.cls false [.range 'a' 'z', .range 'A' 'Z', .range '0' '9'])]),
    .star false (.cls true [.one '>']), .ch '>']

/-- `<\/([A-Z][a-zA-Z0-9]*)>` -/
def reJsxCloseTag : RE :=
  rseq [.ch '<', .ch '/',
    .grp 1 (rseq [.cls false [.range 'A' 'Z'],
      .star false (.cls false [.range 'a' 'z', .range 'A' 'Z', .range '0' '9'])]),
    .ch '>']

/-- `<([A-Z][a-zA-Z0-9]*)[^>]*\/>` -/
def reJsxSelfCloseTag : RE :=
  rseq [.ch '<',
    .grp 1 (rseq [.cls false [.range 'A' 'Z'],
      .star false (.cls false [.range 'a' 'z', .range 'A' 'Z', .range '0' '9'])]),
    .star false (.cls true [.one '>']), .ch '/', .ch '>']

/-- `/<[a-zA-Z]/.test(code)`: a `<` immediately followed by a letter. -/
def hasJsxElementL : List Char → Bool
  | [] => false
  | c :: rest =>
    (c = '<' && (match rest.head? with | some d => d.isAlpha | none => false)) ||
      hasJsxElementL rest

/-- Do the trailing characters (reversed input) end in one of the truncation
tokens `, ; = ( [ : + -` or `||` or `&&`?  This is the common core of the
`truncationPatterns` table (GeminiService.ts:897), each entry being
`tok\s*$`. -/
def danglingRevTest : List Char → Bool
  | [] => false
  | c :: rest =>
    c = ',' || c = ';' || c = '=' || c = '(' || c = '[' || c = ':' || c = '+' || c = '-' ||
      (c = '|' && rest.head? = some '|') || (c = '&' && rest.head? = some '&')

/-- Check 6 of `validateGeminiResponse`: some `truncationPatterns` entry
`tok\s*$` matches `lastChars` (the last 50 chars of the trimmed response).
Since every entry is anchored `…\s*$`, this holds exactly when the text
obtained by dropping trailing whitespace ends in one of the tokens. -/
def truncationTriggered (code : String) : Bool :=
  let te := jsTrimEndL (strL code)
  let lastChars := takeRightL 50 te
  danglingRevTest (lastChars.reverse.dropWhile wsChar)

/-- Check 2: `function App`, `const App =` or `export default` present. -/
def hasFunctionDecl (code : String) : Bool :=
  containsSub code "function App" || containsSub code "const App =" ||
    containsSub code "export default"

/-- Check 4's `Math.abs(openBraces - closeBraces)`. -/
def braceDiffNat (code : String) : Nat :=
  ((countCharL '\x7b' (strL code) : Int) - (countCharL '\x7d' (strL code) : Int)).natAbs

/-- Check 5's `Math.abs(openTagCount - closeTagCount)` with
`openTagCount = jsxOpenTags.length - selfClosingTags.length`. -/
def tagDiffNat (code : String) : Nat :=
  ((((reAll reJsxOpenTag code).length : Int) - ((reAll reJsxSelfCloseTag code).length : Int)) -
    ((reAll reJsxCloseTag code).length : Int)).natAbs

/-- `GeminiServiceClass.validateGeminiResponse` (GeminiService.ts:826): the
raw-stage checks 1–8 in source order, returning the first failure's reason.
All entries of the truncation table produce the same reason text, so check 6
is embedded as a single disjunction (`truncationTriggered`). -/
def validateGeminiResponse (rawCode : String) : GemValidation :=
  let code := jsTrim rawCode
  if code.length < 50 then
    ⟨false, "Response too short (" ++ toString code.length ++ " chars) - likely truncated or empty"⟩
  else if !hasFunctionDecl code then
    ⟨false, "No function declaration found - response may be incomplete"⟩
  else if !containsSub code "return" then
    ⟨false, "No return statement found - component incomplete"⟩
  else if braceDiffNat code > 2 then
    ⟨false, "Severely unbalanced braces: " ++ toString (countCharL '\x7b' (strL code)) ++
      " open, " ++ toString (countCharL '\x7d' (strL code)) ++ " close (diff: " ++
      toString (braceDiffNat code) ++ ")"⟩
  else if tagDiffNat code > 1 then
    ⟨false, "Unbalanced JSX tags: " ++
      toString (((reAll reJsxOpenTag code).length : Int) - ((reAll reJsxSelfCloseTag code).length : Int)) ++
      " opening, " ++ toString (reAll reJsxCloseTag code).length ++ " closing (diff: " ++
      toString (tagDiffNat code) ++ ")"⟩
  else
    let te := jsTrimEndL (strL code)
    if truncationTriggered code then
      ⟨false, "Response appears truncated - ends with incomplete statement: \"" ++
        ofL (takeRightL 20 (takeRightL 50 te)) ++ "\""⟩
    else if !endsWithL ['\x7d'] te then
      ⟨false, "Response doesn\x27t end with closing brace - last 30 chars: \"" ++
        ofL (takeRightL 30 te) ++ "\""⟩
    else if !hasJsxElementL (strL code) then
      ⟨false, "No JSX elements found - component may be incomplete"⟩
    else
      ⟨true, "Response appears complete and well-formed"⟩

/-- Do the first five raw-stage checks (length, function declaration,
`return`, brace diff, JSX tag diff) all pass? -/
def rawChecks1to5Pass (rawCode : String) : Bool :=
  let code := jsTrim rawCode
  !decide (code.length < 50) && hasFunctionDecl code && containsSub code "return" &&
    !decide (braceDiffNat code > 2) && !decide (tagDiffNat code > 1)

end GeminiService

namespace GeminiCodeFixer

open VV

/-! ### GeminiCodeFixer.ts — the production repair pass

Each entry of the `errorPatterns` table is transcribed as its regex AST and
its rewrite function.  The original regex literal is quoted in each doc
comment.  The `test` field of the table is diagnostic-only and carried along
verbatim. -/

/-- One detected error record (`DetectedError`; the TS field `type` keeps its
name). -/
structure DetectedError where
  type : String
  line : Nat
  column : Nat
  message : String
  snippet : String
  suggestedFix : Option String
  deriving Repr, DecidableEq

/-- One entry of the `errorPatterns` table. -/
structure ErrorPattern where
  name : String
  pattern : RE
  fix : MatchRes → String
  test : Option String
  severity : String

def ccIdentStart : List CC := [.range 'a' 'z', .range 'A' 'Z', .one '_', .one '$']

/-- `[a-zA-Z_$][\w]*` -/
def reIdent : RE := rseq [.cls false ccIdentStart, .star false (.cls false [.word])]

/-- `\d+` -/
def reDigits : RE := .plus false (.cls false [.digit])

/-- `` `\$\{([^}]+)\}`([%]) `` -/
def rePercentOutside : RE :=
  rseq [.ch '\x60', .ch '$', .ch '\x7b', .grp 1 (.plus false (.cls true [.one '\x7d'])),
    .ch '\x7d', .ch '\x60', .grp 2 (.cls false [.one '%'])]

/-- `` `\$\{([^}]+)\}`(px|rem|em|vh|vw) `` -/
def rePxOutside : RE :=
  rseq [.ch '\x60', .ch '$', .ch '\x7b', .grp 1 (.plus false (.cls true [.one '\x7d'])),
    .ch '\x7d', .ch '\x60',
    .grp 2 (raltn [rstr "px", rstr "rem", rstr "em", rstr "vh", rstr "vw"])]

/-- `className=\{([^`{][^}]*?\$\{[^}]*\}[^}]*?)\}` -/
def reClassNameMissingBackticks : RE :=
  rseq [rstr "className=", .ch '\x7b',
    .grp 1 (rseq [.cls true [.one '\x60', .one '\x7b'],
      .star true (.cls true [.one '\x7d']),
      .ch '$', .ch '\x7b', .star false (.cls true [.one '\x7d']), .ch '\x7d',
      .star true (.cls true [.one '\x7d'])]),
    .ch '\x7d']

/-- `>([^<{]+\$\{[^}]+\}[^<{]*)<` -/
def reJsxTextInterpolation : RE :=
  rseq [.ch '>',
    .grp 1 (rseq [.plus false (.cls true [.one '<', .one '\x7b']),
      .ch '$', .ch '\x7b', .plus false (.cls true [.one '\x7d']), .ch '\x7d',
      .star false (.cls true [.one '<', .one '\x7b'])]),
    .ch '<']

/-- `className=\{([^`][^}]*\$\{[^}]*?\}[^}]*)\}` -/
def reJsxCurlyBraceTemplate : RE :=
  rseq [rstr "className=", .ch '\x7b',
    .grp 1 (rseq [.cls true [.one '\x60'],
      .star false (.cls true [.one '\x7d']),
      .ch '$', .ch '\x7b', .star true (.cls true [.one '\x7d']), .ch '\x7d',
      .star false (.cls true [.one '\x7d'])]),
    .ch '\x7d']

/-- `([A-Z][a-zA-Z]*)`​`\$\{([^}]+)\}`​`` (identifier glued to a backtick interpolation) -/
def reIdentBacktickInterp : RE :=
  rseq [.grp 1 (rseq [.cls false [.range 'A' 'Z'],
      .star false (.cls false [.range 'a' 'z', .range 'A' 'Z'])]),
    .ch '\x60', .ch '$', .ch '\x7b', .grp 2 (.plus false (.cls true [.one '\x7d'])),
    .ch '\x7d', .ch '\x60']

/-- `\?\s*([^`'"{}\s][^:]*\$\{[^}]+\}[^:]*)\s*:` -/
def reTernaryMissingBackticks : RE :=
  rseq [.ch '?', rWsStar,
    .grp 1 (rseq [
      .cls true [.one '\x60', .one '\x27', .one '"', .one '\x7b', .one '\x7d', .ws],
      .star false (.cls true [.one ':']),
      .ch '$', .ch '\x7b', .plus false (.cls true [.one '\x7d']), .ch '\x7d',
      .star false (.cls true [.one ':'])]),
    rWsStar, .ch ':']

/-- `style=\{\{([^}]+)\}\}` -/
def reStyleObjectSimple : RE :=
  rseq [rstr "style=", .ch '\x7b', .ch '\x7b',
    .grp 1 (.plus false (.cls true [.one '\x7d'])), .ch '\x7d', .ch '\x7d']

/-- Inner rewrite of `style_value_missing_backticks`:
`(\w+):\s*([^`'",{}][^,}]*?\$\{[^}]*?\}[^,}]*?)(?=[,}])` -/
def reStyleValueInner : RE :=
  rseq [.grp 1 (.plus false (.cls false [.word])), .ch ':', rWsStar,
    .grp 2 (rseq [
      .cls true [.one '\x60', .one '\x27', .one '"', .one ',', .one '\x7b', .one '\x7d'],
      .star true (.cls true [.one ',', .one '\x7d']),
      .ch '$', .ch '\x7b', .star true (.cls true [.one '\x7d']), .ch '\x7d',
      .star true (.cls true [.one ',', .one '\x7d'])]),
    .ahead false (.cls false [.one ',', .one '\x7d'])]

/-- `Math\.random\(\)\s+([a-zA-Z_$][\w$.\[\]]*)` -/
def reRandomMissingMul : RE :=
  rseq [rstr "Math.random()", rWsPlus,
    .grp 1 (rseq [.cls false ccIdentStart,
      .star false (.cls false [.word, .one '$', .one '.', .one '[', .one ']'])])]

/-- `\)\s{2,}(\d+)` -/
def reParenMissingMul : RE :=
  rseq [.ch ')', .rep2 (.cls false [.ws]), .grp 1 reDigits]

/-- `(\d+\.\d+)\s{2,}([a-zA-Z_$][\w]*)` -/
def reDecimalMissingMul : RE :=
  rseq [.grp 1 (rseq [reDigits, .ch '.', reDigits]), .rep2 (.cls false [.ws]), .grp 2 reIdent]

/-- `([a-zA-Z_$][\w]*)\s{2,}(\d+)(?!\w)` -/
def reIdentNumMissingMul : RE :=
  rseq [.grp 1 reIdent, .rep2 (.cls false [.ws]), .grp 2 reDigits,
    .ahead true (.cls false [.word])]

/-- `\[([a-zA-Z_$][\w]*)\s{2,}(\d+)\]` -/
def reArrayAccessMissingMul : RE :=
  rseq [.ch '[', .grp 1 reIdent, .rep2 (.cls false [.ws]), .grp 2 reDigits, .ch ']']

/-- `\{\/\s*(.*?)\s*\/\}` -/
def reBrokenJsxComment : RE :=
  rseq [.ch '\x7b', .ch '/', rWsStar, .grp 1 (.star true .dot), rWsStar, .ch '/', .ch '\x7d']

/-- `=\s*([^{"][^=\s>]*\$\{[^}]+\}[^"\s>]*)\s*(?=[>\/])` -/
def reJsxExprMissingBraces : RE :=
  rseq [.ch '=', rWsStar,
    .grp 1 (rseq [.cls true [.one '\x7b', .one '"'],
      .star false (.cls true [.one '=', .ws, .one '>']),
      .ch '$', .ch '\x7b', .plus false (.cls true [.one '\x7d']), .ch '\x7d',
      .star false (.cls true [.one '"', .ws, .one '>'])]),
    rWsStar, .ahead false (.cls false [.one '>', .one '/'])]

/-- `(\$\{[^}]+\})([a-zA-Z])` -/
def reMissingSpaceBeforeClass : RE :=
  rseq [.grp 1 (rseq [.ch '$', .ch '\x7b', .plus false (.cls true [.one '\x7d']), .ch '\x7d']),
    .grp 2 (.cls false [.range 'a' 'z', .range 'A' 'Z'])]

/-- `(?<!React\.)\b(useState|useEffect|useCallback|useMemo|useRef)\(` -/
def reUndefinedReact : RE :=
  rseq [.nbehindStr "React.", .wordB,
    .grp 1 (raltn [rstr "useState", rstr "useEffect", rstr "useCallback",
      rstr "useMemo", rstr "useRef"]),
    .ch '(']

/-- `<>\s*<\/>` -/
def reIncorrectFragment : RE := rseq [rstr "<>", rWsStar, rstr "</>"]

/-- The `errorPatterns` table (GeminiCodeFixer.ts:26), in source order. -/
def errorPatterns : List ErrorPattern := [
  ⟨"percent_outside_backticks", rePercentOutside,
    (fun m => "\x60$\x7b" ++ mgrp m 1 ++ "\x7d" ++ mgrp m 2 ++ "\x60"),
    some "style=\x7b\x7b width: \x60$\x7bvalue\x7d\x60% \x7d\x7d", "error"⟩,
  ⟨"px_outside_backticks", rePxOutside,
    (fun m => "\x60$\x7b" ++ mgrp m 1 ++ "\x7d" ++ mgrp m 2 ++ "\x60"),
    some "style=\x7b\x7b height: \x60$\x7bheight\x7d\x60px \x7d\x7d", "error"⟩,
  ⟨"className_missing_backticks", reClassNameMissingBackticks,
    (fun m =>
      let content := mgrp m 1
      if containsSub content "\x60" then ofL m.matched
      else "className=\x7b\x60" ++ content ++ "\x60\x7d"),
    some "className=\x7btext-lg $\x7bisActive ? \"active\" : \"\"\x7d\x7d", "error"⟩,
  ⟨"jsx_text_with_interpolation", reJsxTextInterpolation,
    (fun m =>
      let content := mgrp m 1
      if containsSub content "\x60" || jsTrim content = "" then ofL m.matched
      else ">\x7b\x60" ++ jsTrim content ++ "\x60\x7d<"),
    some "<div>Hello $\x7bname\x7d!</div>", "error"⟩,
  ⟨"jsx_curly_brace_template_literal", reJsxCurlyBraceTemplate,
    (fun m =>
      let content := mgrp m 1
      if containsSub content "\x60" then ofL m.matched
      else "className=\x7b\x60" ++ content ++ "\x60\x7d"),
    some "className=\x7btext $\x7bisActive ? \"active\" : \"\"\x7d\x7d", "error"⟩,
  ⟨"identifier_with_backtick_interpolation", reIdentBacktickInterp,
    (fun m => "\x60" ++ mgrp m 1 ++ "$\x7b" ++ mgrp m 2 ++ "\x7d\x60"),
    some "User\x60$\x7bid\x7d\x60", "error"⟩,
  ⟨"ternary_missing_backticks", reTernaryMissingBackticks,
    (fun m =>
      let content := mgrp m 1
      if containsSub content "\x60" then ofL m.matched
      else "? \x60" ++ content ++ "\x60 :"),
    some "winner ? $\x7bwinner\x7d wins : \"Draw\"", "error"⟩,
  ⟨"style_value_missing_backticks", reStyleObjectSimple,
    (fun m =>
      let styleContent := mgrp m 1
      let fixed := reReplAll reStyleValueInner
        (fun im =>
          let value := mgrp im 2
          if containsSub value "\x60" then ofL im.matched
          else mgrp im 1 ++ ": \x60" ++ jsTrim value ++ "\x60")
        styleContent
      "style=\x7b\x7b" ++ fixed ++ "\x7d\x7d"),
    some "style=\x7b\x7b width: $\x7bwidth\x7d%, height: $\x7bheight\x7dpx \x7d\x7d", "error"⟩,
  ⟨"missing_multiplication_after_random", reRandomMissingMul,
    (fun m => "Math.random() * " ++ mgrp m 1),
    some "Math.random()  array.length", "error"⟩,
  ⟨"missing_multiplication_after_paren", reParenMissingMul,
    (fun m => ") * " ++ mgrp m 1),
    some "(a + b)  2", "error"⟩,
  ⟨"missing_multiplication_decimals", reDecimalMissingMul,
    (fun m => mgrp m 1 ++ " * " ++ mgrp m 2),
    some "1.5  deltaTime", "error"⟩,
  ⟨"missing_multiplication_identifier_number", reIdentNumMissingMul,
    (fun m => mgrp m 1 ++ " * " ++ mgrp m 2),
    some "value  100", "error"⟩,
  ⟨"missing_operator_array_access", reArrayAccessMissingMul,
    (fun m => "[" ++ mgrp m 1 ++ " * " ++ mgrp m 2 ++ "]"),
    some "array[index  1]", "error"⟩,
  ⟨"broken_jsx_comment", reBrokenJsxComment,
    (fun m => "\x7b/* " ++ mgrp m 1 ++ " */\x7d"),
    some "\x7b/ This is a comment /\x7d", "error"⟩,
  ⟨"jsx_expression_missing_braces", reJsxExprMissingBraces,
    (fun m =>
      let content := mgrp m 1
      if strStartsWith content "\x7b" then ofL m.matched
      else "=\x7b\x60" ++ content ++ "\x60\x7d"),
    some "aria-label=Click $\x7bcount\x7d times", "error"⟩,
  ⟨"missing_space_before_static_class", reMissingSpaceBeforeClass,
    (fun m => mgrp m 1 ++ " " ++ mgrp m 2),
    some "className=\x7b\x60$\x7bisActive ? \"active\" : \"\"\x7dtext-lg\x60\x7d", "warning"⟩,
  ⟨"undefined_React", reUndefinedReact,
    (fun m => "React." ++ mgrp m 1 ++ "("),
    some "const [count, setCount] = useState(0)", "error"⟩,
  ⟨"incorrect_fragment", reIncorrectFragment,
    (fun _ => "<React.Fragment></React.Fragment>"),
    some "<></>", "warning"⟩]

end GeminiCodeFixer

namespace GeminiCodeFixer

open VV

/-- `getLineColumn` (GeminiCodeFixer.ts:395): 1-based line/column of an index. -/
def getLineColumn (code : String) (index : Nat) : Nat × Nat :=
  let pre := (strL code).take index
  let ls := splitNlL pre.length pre
  (ls.length, (ls.getLast?.getD []).length + 1)

/-- `getCodeSnippet` (GeminiCodeFixer.ts:403). -/
def getCodeSnippet (lines : List (List Char)) (lineNumber : Nat) : String :=
  let start := lineNumber - 2
  let stop := min lines.length (lineNumber + 1)
  ofL (joinNl ((lines.drop start).take (stop - start)))

/-- `detectErrors` (GeminiCodeFixer.ts:254): collect every match of every
pattern, with its position, snippet and suggested fix. -/
def detectErrors (code : String) : List DetectedError :=
  let lines := splitNl code
  errorPatterns.flatMap (fun p =>
    (reAll p.pattern code).map (fun m =>
      let pos := getLineColumn code m.idx
      ⟨p.name, pos.1, pos.2, p.name ++ ": " ++ ofL m.matched,
        getCodeSnippet lines pos.1, some (p.fix m)⟩))

/-- `className=\{([^}]+(?:\{[^}]*\}[^}]*)*)\}` (fixComplexClassName). -/
def reComplexClassName : RE :=
  rseq [rstr "className=", .ch '\x7b',
    .grp 1 (rseq [.plus false (.cls true [.one '\x7d']),
      .star false (rseq [.ch '\x7b', .star false (.cls true [.one '\x7d']), .ch '\x7d',
        .star false (.cls true [.one '\x7d'])])]),
    .ch '\x7d']

/-- `` `([^`]*)`\$\{ `` (nested-backtick removal, first rewrite). -/
def reNestedBt1 : RE :=
  rseq [.ch '\x60', .grp 1 (.star false (.cls true [.one '\x60'])), .ch '\x60',
    .ch '$', .ch '\x7b']

/-- `` \}`([^`]*)` `` (nested-backtick removal, second rewrite). -/
def reNestedBt2 : RE :=
  rseq [.ch '\x7d', .ch '\x60', .grp 1 (.star false (.cls true [.one '\x60'])), .ch '\x60']

/-- The `while (fixed.includes('`') && fixed.includes('`${'))` loop inside
`fixComplexClassName`.  The source loop has no iteration bound (and would
spin if the condition held with neither rewrite firing); the embedding
bounds it by fuel, which no input below ever exhausts. -/
def removeNestedBt : Nat → String → String
  | 0, s => s
  | fuel + 1, s =>
    if containsSub s "\x60" && containsSub s "\x60$\x7b" then
      let s1 := reReplAll reNestedBt1 (fun m => "\x60" ++ mgrp m 1 ++ "$\x7b") s
      let s2 := reReplAll reNestedBt2 (fun m => "\x7d" ++ mgrp m 1) s1
      removeNestedBt fuel s2
    else s

/-- `fixComplexClassName` (GeminiCodeFixer.ts:298). -/
def fixComplexClassName (code : String) : String :=
  reReplAll reComplexClassName (fun m =>
    let content := mgrp m 1
    if containsSub content "$\x7b" && !containsSub content "\x60" then
      "className=\x7b\x60" ++ content ++ "\x60\x7d"
    else
      let fixed := removeNestedBt (content.length + 1) content
      if fixed ≠ content then "className=\x7b" ++ fixed ++ "\x7d"
      else ofL m.matched) code

/-- `style=\{\{([^}]+(?:\{[^}]*\}[^}]*)*)\}\}` (fixComplexStyleObjects). -/
def reComplexStyleObject : RE :=
  rseq [rstr "style=", .ch '\x7b', .ch '\x7b',
    .grp 1 (rseq [.plus false (.cls true [.one '\x7d']),
      .star false (rseq [.ch '\x7b', .star false (.cls true [.one '\x7d']), .ch '\x7d',
        .star false (.cls true [.one '\x7d'])])]),
    .ch '\x7d', .ch '\x7d']

/-- `(\w+):\s*([^,}]+)` (parseStyleProperties). -/
def rePropPair : RE :=
  rseq [.grp 1 (.plus false (.cls false [.word])), .ch ':', rWsStar,
    .grp 2 (.plus false (.cls true [.one ',', .one '\x7d']))]

/-- `parseStyleProperties` (GeminiCodeFixer.ts:409). -/
def parseStyleProperties (styleContent : String) : List (String × String) :=
  (reAll rePropPair styleContent).map (fun m => (mgrp m 1, jsTrim (mgrp m 2)))

/-- `fixComplexStyleObjects` (GeminiCodeFixer.ts:323). -/
def fixComplexStyleObjects (code : String) : String :=
  reReplAll reComplexStyleObject (fun m =>
    let props := parseStyleProperties (mgrp m 1)
    let fixedProps := props.map (fun p =>
      if containsSub p.2 "$\x7b" && !strStartsWith p.2 "\x60" then
        p.1 ++ ": \x60" ++ p.2 ++ "\x60"
      else p.1 ++ ": " ++ p.2)
    "style=\x7b\x7b" ++ joinSep ", " fixedProps ++ "\x7d\x7d") code

/-- `>([^<]+)<` (fixMixedJSXChildren). -/
def reJsxChildren : RE := rseq [.ch '>', .grp 1 (.plus false (.cls true [.one '<'])), .ch '<']

/-- `fixMixedJSXChildren` (GeminiCodeFixer.ts:339). -/
def fixMixedJSXChildren (code : String) : String :=
  reReplAll reJsxChildren (fun m =>
    let content := mgrp m 1
    if containsSub content "$\x7b" && !containsSub content "\x7b\x60" then
      ">\x7b\x60" ++ jsTrim content ++ "\x60\x7d<"
    else ofL m.matched) code

/-- `(\d+)\s{2,}([a-zA-Z_$][\w]*)` (ensureMathOperators). -/
def reNumIdentMul : RE :=
  rseq [.grp 1 reDigits, .rep2 (.cls false [.ws]), .grp 2 reIdent]

/-- `([a-zA-Z_$][\w]*)\s{2,}(\d+)` (ensureMathOperators; unlike the
`errorPatterns` entry it has no `(?!\w)` lookahead). -/
def reIdentNumMul : RE :=
  rseq [.grp 1 reIdent, .rep2 (.cls false [.ws]), .grp 2 reDigits]

/-- `ensureMathOperators` (GeminiCodeFixer.ts:352): the four `$1 * $2`-style
replacements, in source order. -/
def ensureMathOperators (code : String) : String :=
  let r1 := reReplAll reParenMissingMul (fun m => ") * " ++ mgrp m 1) code
  let r2 := reReplAll reNumIdentMul (fun m => mgrp m 1 ++ " * " ++ mgrp m 2) r1
  let r3 := reReplAll reIdentNumMul (fun m => mgrp m 1 ++ " * " ++ mgrp m 2) r2
  reReplAll reDecimalMissingMul (fun m => mgrp m 1 ++ " * " ++ mgrp m 2) r3

/-- `([^`]|^)\$\{([^{}]+)\}([^`]|$)` (fixUniversalTemplateLiterals). -/
def reUniversalInterp : RE :=
  rseq [.grp 1 (.alt (.cls true [.one '\x60']) .bos),
    .ch '$', .ch '\x7b',
    .grp 2 (.plus false (.cls true [.one '\x7b', .one '\x7d'])),
    .ch '\x7d',
    .grp 3 (.alt (.cls true [.one '\x60']) .eos)]

/-- `fixUniversalTemplateLiterals` (GeminiCodeFixer.ts:373). -/
def fixUniversalTemplateLiterals (code : String) : String :=
  reReplAll reUniversalInterp (fun m =>
    let before := mgrp m 1
    let content := mgrp m 2
    let after := mgrp m 3
    if before = "\x7b" && after = "\x7d" then ofL m.matched
    else if strEndsWith before "\x60" || strStartsWith after "\x60" then ofL m.matched
    else before ++ "\x60$\x7b" ++ content ++ "\x7d\x60" ++ after) code

/-- `applyContextAwareFixes` (GeminiCodeFixer.ts:279), in source order. -/
def applyContextAwareFixes (code : String) : String :=
  fixUniversalTemplateLiterals
    (ensureMathOperators
      (fixMixedJSXChildren
        (fixComplexStyleObjects
          (fixComplexClassName code))))

/-- Signed bracket count of `validateCode`'s single pass. -/
def bracketCount (code : String) (o c : Char) : Int :=
  (strL code).foldl (fun acc x => if x = o then acc + 1 else if x = c then acc - 1 else acc) 0

/-- The `unbalanced_brackets` record pushed by `validateCode`. -/
def unbalancedErr (b : String) (count : Int) : DetectedError :=
  ⟨"unbalanced_brackets", 0, 0,
    "Unbalanced " ++ b ++ ": " ++ (if count > 0 then "missing closing" else "extra closing"),
    "", none⟩

/-- `validateCode` (GeminiCodeFixer.ts:421), returning its boolean together
with the records it pushes onto `detectedErrors`. -/
def validateCode (code : String) : Bool × List DetectedError :=
  if !strStartsWith code "export default function App" then
    (false, [⟨"invalid_structure", 1, 1,
      "Code must start with \"export default function App\"",
      ofL ((strL code).take 50), none⟩])
  else
    let cb := bracketCount code '\x7b' '\x7d'
    let cp := bracketCount code '(' ')'
    let ck := bracketCount code '[' ']'
    if cb ≠ 0 then (false, [unbalancedErr "\x7b" cb])
    else if cp ≠ 0 then (false, [unbalancedErr "(" cp])
    else if ck ≠ 0 then (false, [unbalancedErr "[" ck])
    else (true, [])

/-- Return value of `fixCode`. -/
structure FixResult where
  fixedCode : String
  errors : List DetectedError
  stats : List (String × Nat)
  success : Bool
  deriving Repr

/-- `fixCode` (GeminiCodeFixer.ts:192): the pre-check `validateCode(code)`
(its boolean is only logged, but its pushed records stay in
`detectedErrors`), then `detectErrors`, then one single pass of every
`errorPatterns` rewrite in table order (recording per-pattern match counts
of the pre-rewrite text as `stats`), then the context-aware fixes, then
`validateCode` on the result. -/
def fixCode (code : String) : FixResult :=
  let preErrs := (validateCode code).2
  let detected := detectErrors code
  let step := errorPatterns.foldl
    (fun (acc : String × List (String × Nat)) p =>
      let newCode := reReplAll p.pattern p.fix acc.1
      if newCode = acc.1 then (acc.1, acc.2)
      else (newCode, acc.2 ++ [(p.name, (reAll p.pattern acc.1).length)]))
    (code, [])
  let fixedCode := applyContextAwareFixes step.1
  let post := validateCode fixedCode
  ⟨fixedCode, preErrs ++ detected ++ post.2, step.2, post.1⟩

end GeminiCodeFixer

namespace CodeFixer

open VV

/-! ### CodeFixer.ts — the standalone auto-fix pass (`CodeFixer.fixAll`) -/

/-- Apply positional `{start, end, replacement}` fixes in reverse order
(CodeFixer.ts:97 and 160). -/
def applyFixesRev (result : List Char) (fixes : List (Nat × Nat × List Char)) : List Char :=
  fixes.reverse.foldl
    (fun acc f => acc.take f.1 ++ f.2.2 ++ acc.drop f.2.1) result

/-- The manual brace-matching loop of `fixTemplateListInClassName`
(CodeFixer.ts:68): starting just after `className={` with `braceCount = 1`,
scan to the matching `}`, recording whether a `${` was seen.  Returns the
final `endPos` (after the source's `endPos--`) and the interpolation flag. -/
def cfScanBody (codeL : List Char) : Nat → Nat → Int → Bool → Nat × Bool
  | 0, endPos, _, hasInterp => (endPos - 1, hasInterp)
  | fuel + 1, endPos, braceCount, hasInterp =>
    if endPos < codeL.length && braceCount > 0 then
      let c := (codeL.get? endPos).getD ' '
      let braceCount := if c = '\x7b' then braceCount + 1 else braceCount
      let braceCount := if c = '\x7d' then braceCount - 1 else braceCount
      let hasInterp := hasInterp ||
        (c = '$' && codeL.get? (endPos + 1) = some '\x7b')
      cfScanBody codeL fuel (endPos + 1) braceCount hasInterp
    else (endPos - 1, hasInterp)

/-- All indices at which `needle` occurs. -/
def allIdxL (needle : List Char) (l : List Char) : List Nat :=
  (List.range (l.length + 1)).filter (fun i => isPrefL needle (l.drop i))

/-- `fixTemplateListInClassName` (CodeFixer.ts:42): for each `className={`,
brace-match the attribute body; if it interpolates (`${`) and does not start
with a backtick, replace the whole attribute by the backtick-wrapped form.
Fixes are collected against the original text and applied in reverse. -/
def fixTemplateListInClassName (code : String) : String :=
  let codeL := strL code
  let marker := strL "className=\x7b"
  let fixes := (allIdxL marker codeL).filterMap (fun idx =>
    let startPos := idx + marker.length
    let startsWithBacktick := codeL.get? startPos = some '\x60'
    let scan := cfScanBody codeL (codeL.length + 1) startPos 1 false
    let endPos := scan.1
    let content := (codeL.take endPos).drop startPos
    if scan.2 && !startsWithBacktick then
      some (idx, endPos + 1, strL "className=\x7b\x60" ++ content ++ strL "\x60\x7d")
    else none)
  ofL (applyFixesRev codeL fixes)

/-- `style=\{\{([^}]+)\}\}` (fixTemplateListInStyle, outer pattern). -/
def reStyleObjectPattern : RE :=
  rseq [rstr "style=", .ch '\x7b', .ch '\x7b',
    .grp 1 (.plus false (.cls true [.one '\x7d'])), .ch '\x7d', .ch '\x7d']

/-- `(\w+):\s*([^,}]+?)(?=\s*[,}])` (fixTemplateListInStyle, property pattern). -/
def rePropertyPattern : RE :=
  rseq [.grp 1 (.plus false (.cls false [.word])), .ch ':', rWsStar,
    .grp 2 (.plus true (.cls true [.one ',', .one '\x7d'])),
    .ahead false (rseq [rWsStar, .cls false [.one ',', .one '\x7d']])]

/-- `fixTemplateListInStyle` (CodeFixer.ts:111). -/
def fixTemplateListInStyle (code : String) : String :=
  let fixes := (reAll reStyleObjectPattern code).filterMap (fun m =>
    let styleContent := mgrp m 1
    let styleFixes := (reAll rePropertyPattern styleContent).filterMap (fun pm =>
      let value := jsTrim (mgrp pm 2)
      if containsSub value "$\x7b" && !strStartsWith value "\x60" then
        some (pm.idx, pm.idx + pm.matched.length,
          strL (mgrp pm 1 ++ ": \x60" ++ value ++ "\x60"))
      else none)
    if styleFixes.length > 0 then
      let newStyleContent := applyFixesRev (strL styleContent) styleFixes
      some (m.idx, m.idx + m.matched.length,
        strL "style=\x7b\x7b" ++ newStyleContent ++ strL "\x7d\x7d")
    else none)
  ofL (applyFixesRev (strL code) fixes)

/-- `\$\{([^}]*)\$\{([^}]*)\}([^}]*)\}` (fixNestedTemplateLiterals). -/
def reNestedInterp : RE :=
  rseq [.ch '$', .ch '\x7b', .grp 1 (.star false (.cls true [.one '\x7d'])),
    .ch '$', .ch '\x7b', .grp 2 (.star false (.cls true [.one '\x7d'])), .ch '\x7d',
    .grp 3 (.star false (.cls true [.one '\x7d'])), .ch '\x7d']

/-- The bounded rewrite loop of `fixNestedTemplateLiterals` (CodeFixer.ts:184):
repeat the nested-`${}` collapse while it changes something, for at most
`maxIterations = 10` passes. -/
def nestedLoop : Nat → String → String
  | 0, s => s
  | fuel + 1, s =>
    let s2 := reReplAll reNestedInterp
      (fun m => "$\x7b" ++ mgrp m 1 ++ mgrp m 2 ++ mgrp m 3 ++ "\x7d") s
    if s2 = s then s else nestedLoop fuel s2

def fixNestedTemplateLiterals (code : String) : String := nestedLoop 10 code

/-- `ensureProperQuoting` (CodeFixer.ts:207) is the identity. -/
def ensureProperQuoting (code : String) : String := code

/-- `CodeFixer.fixAll` (CodeFixer.ts:10): the four fixes in sequence.  The
trailing `analyze` call only produces log output. -/
def fixAll (code : String) : String :=
  ensureProperQuoting
    (fixNestedTemplateLiterals
      (fixTemplateListInStyle
        (fixTemplateListInClassName code)))

end CodeFixer

namespace GeminiService

open VV

/-! ### cleanupGeneratedCode and its regexes (GeminiService.ts:540) -/

/-- ```` /```(?:jsx|javascript|tsx|typescript)?\s*\n([\s\S]*?)\n```/ ```` -/
def reMdCodeBlock : RE :=
  rseq [rstr "```",
    .opt false (raltn [rstr "jsx", rstr "javascript", rstr "tsx", rstr "typescript"]),
    rWsStar, .ch '\n',
    .grp 1 (.star true .anyc),
    .ch '\n', rstr "```"]

/-- `import\s+React\s+from\s+['"]react['"]` -/
def reImportReactSearch : RE :=
  rseq [rstr "import", rWsPlus, rstr "React", rWsPlus, rstr "from", rWsPlus,
    rQuote, rstr "react", rQuote]

/-- `export\s+default\s+function\s+App` -/
def reExportDefaultFnApp : RE :=
  rseq [rstr "export", rWsPlus, rstr "default", rWsPlus, rstr "function", rWsPlus, rstr "App"]

/-- `function\s+App\s*\(` -/
def reFunctionAppParen : RE :=
  rseq [rstr "function", rWsPlus, rstr "App", rWsStar, .ch '(']

def reImportReactAnchored : RE := .seq .bos reImportReactSearch

def reExportDefaultAnchored : RE := .seq .bos reExportDefaultFnApp

def reFunctionAppAnchored : RE := .seq .bos reFunctionAppParen

/-- `\*\*([^*]+)\*\*` -/
def reBoldMd : RE :=
  rseq [.ch '*', .ch '*', .grp 1 (.plus false (.cls true [.one '*'])), .ch '*', .ch '*']

/-- `\*([^*]+)\*` -/
def reItalicMd : RE :=
  rseq [.ch '*', .grp 1 (.plus false (.cls true [.one '*'])), .ch '*']

/-- `const\s+.*?=\s*require\(['"].*?['"]\)\s*;?` -/
def reRequireConst : RE :=
  rseq [rstr "const", rWsPlus, .star true .dot, .ch '=', rWsStar, rstr "require(",
    rQuote, .star true .dot, rQuote, .ch ')', rWsStar, .opt false (.ch ';')]

/-- `require\(['"].*?['"]\)` -/
def reRequireBare : RE :=
  rseq [rstr "require(", rQuote, .star true .dot, rQuote, .ch ')']

/-- `(^|\n)(function\s+App\s*\()` -/
def reFnAppLine : RE :=
  rseq [.grp 1 (.alt .bos (rstr "\n")),
    .grp 2 (rseq [rstr "function", rWsPlus, rstr "App", rWsStar, .ch '('])]

/-- `searchPatterns` loop (GeminiService.ts:588): first pattern with a match
at a positive index strips the text before it; a match at index 0 moves on
to the next pattern. -/
def searchStrip : List RE → String → String
  | [], code => code
  | p :: ps, code =>
    match reFirst p code with
    | some m => if m.idx > 0 then ofL ((strL code).drop m.idx) else searchStrip ps code
    | none => searchStrip ps code

/-! Direct scanners for the line-anchored (`m`-flag) React-import patterns. -/

def isLineTerm (c : Char) : Bool := c = '\n' || c = '\r' || c = ' ' || c = ' '

/-- `\s+` with maximal munch (every token following it in these patterns
starts with a non-whitespace character, so maximal munch is exact). -/
def eatWsPlusL (cs : List Char) : Option (List Char) :=
  match cs with
  | c :: rest => if wsChar c then some (rest.dropWhile wsChar) else none
  | [] => none

/-- `['"]` -/
def eatQuoteL (cs : List Char) : Option (List Char) :=
  match cs with
  | c :: rest => if c = '\x27' || c = '"' then some rest else none
  | [] => none

/-- `import\s+React\s+from\s+['"]react['"]` anchored at the current position,
returning the rest on success. -/
def matchImportReactL (cs : List Char) : Option (List Char) :=
  (eatLit (strL "import") cs).bind fun c1 =>
  (eatWsPlusL c1).bind fun c2 =>
  (eatLit (strL "React") c2).bind fun c3 =>
  (eatWsPlusL c3).bind fun c4 =>
  (eatLit (strL "from") c4).bind fun c5 =>
  (eatWsPlusL c5).bind fun c6 =>
  (eatQuoteL c6).bind fun c7 =>
  (eatLit (strL "react") c7).bind fun c8 =>
  eatQuoteL c8

/-- Case-insensitive variant (the `/i` pattern of the import filter). -/
def matchImportReactCIL (cs : List Char) : Option (List Char) :=
  (eatLitCI (strL "import") cs).bind fun c1 =>
  (eatWsPlusL c1).bind fun c2 =>
  (eatLitCI (strL "React") c2).bind fun c3 =>
  (eatWsPlusL c3).bind fun c4 =>
  (eatLitCI (strL "from") c4).bind fun c5 =>
  (eatWsPlusL c5).bind fun c6 =>
  (eatQuoteL c6).bind fun c7 =>
  (eatLitCI (strL "react") c7).bind fun c8 =>
  eatQuoteL c8

/-- `^import\s+` on a (trimmed) line. -/
def importAnyL (cs : List Char) : Bool :=
  ((eatLit (strL "import") cs).bind eatWsPlusL).isSome

/-- Does `p` hold at the start of any non-initial line? -/
def lineStartsAny (p : List Char → Bool) : List Char → Bool
  | [] => false
  | c :: rest => (if isLineTerm c then p rest else false) || lineStartsAny p rest

/-- An `m`-anchored `^pat` test: `pat` matches at the start of the string or
just after a line terminator. -/
def lineAnchoredTest (p : List Char → Bool) (cs : List Char) : Bool :=
  p cs || lineStartsAny p cs

/-- `/^import\s+React\s+from\s+['"]react['"]/m.test` (GeminiService.ts:633)
and the failsafe test at line 723 (whose trailing `\s*;?` can always match
empty and so never affects the test). -/
def hasLineAnchoredReactImport (cs : List Char) : Bool :=
  lineAnchoredTest (fun l => (matchImportReactL l).isSome) cs

/-- Extent of `import\s+React\s+from\s+['"]react['"]\s*;?\s*\n?` at the
current position (for the `gm` removal at GeminiService.ts:729). -/
def importReactRemoveExt (cs : List Char) : Option Nat :=
  (matchImportReactL cs).map fun rest =>
    let r1 := rest.dropWhile wsChar
    let r2 := match r1 with | ';' :: t => t | _ => r1
    let r3 := r2.dropWhile wsChar
    let r4 := match r3 with | '\n' :: t => t | _ => r3
    cs.length - r4.length

/-- Extent of `\s*export\s+default\s+import\s+React\s+from\s+['"]react['"]\s*;?\s*\n?`
(the `gm` removal at GeminiService.ts:734). -/
def exportDefaultImportRemoveExt (cs : List Char) : Option Nat :=
  let c0 := cs.dropWhile wsChar
  ((eatLit (strL "export") c0).bind fun c1 =>
   (eatWsPlusL c1).bind fun c2 =>
   (eatLit (strL "default") c2).bind fun c3 =>
   (eatWsPlusL c3).bind fun c4 =>
   matchImportReactL c4).map fun rest =>
    let r1 := rest.dropWhile wsChar
    let r2 := match r1 with | ';' :: t => t | _ => r1
    let r3 := r2.dropWhile wsChar
    let r4 := match r3 with | '\n' :: t => t | _ => r3
    cs.length - r4.length

/-- A `gm` `^pat` global removal: at each line start, if `ext` matches,
remove that extent and continue after it (line-start state tracked through
the last removed character). -/
def lineAnchoredRemoveAll (ext : List Char → Option Nat) : Nat → List Char → Bool → List Char
  | 0, cs, _ => cs
  | _ + 1, [], _ => []
  | fuel + 1, c :: rest, atLS =>
    if atLS then
      match ext (c :: rest) with
      | some n =>
        if n = 0 then c :: lineAnchoredRemoveAll ext fuel rest (isLineTerm c)
        else
          lineAnchoredRemoveAll ext fuel ((c :: rest).drop n)
            (match ((c :: rest).take n).getLast? with
             | some x => isLineTerm x
             | none => atLS)
      | none => c :: lineAnchoredRemoveAll ext fuel rest (isLineTerm c)
    else c :: lineAnchoredRemoveAll ext fuel rest (isLineTerm c)

/-- All of `cleanupGeneratedCode` (GeminiService.ts:540) before the final
failsafe: trim, markdown-block extraction, explanatory-text stripping,
markdown bold/italic removal, non-React import filtering, `require`
removal, React-import insertion, `export default` insertion, and the
`GeminiCodeFixer.fixCode` pass. -/
def cleanupPreFailsafe (code0 : String) : String :=
  let code := jsTrim code0
  let code :=
    match reFirst reMdCodeBlock code with
    | some m => jsTrim (mgrp m 1)
    | none => code
  let foundAtStart := reTest reImportReactAnchored code ||
    reTest reExportDefaultAnchored code || reTest reFunctionAppAnchored code
  let code := if foundAtStart then code
    else searchStrip [reImportReactSearch, reExportDefaultFnApp, reFunctionAppParen] code
  let code := reReplAll reBoldMd (fun m => mgrp m 1) code
  let code := reReplAll reItalicMd (fun m => mgrp m 1) code
  let code := ofL (joinNl ((splitNl code).filter (fun line =>
    (matchImportReactCIL (jsTrimL line)).isSome || !importAnyL (jsTrimL line))))
  let code := reReplAll reRequireConst (fun _ => "") code
  let code := reReplAll reRequireBare (fun _ => "") code
  let code := if hasLineAnchoredReactImport (strL code) then code
    else "import React from \x27react\x27;\n\n" ++ code
  let code := if reTest reExportDefaultFnApp code then code
    else
      match reFirst reFnAppLine code with
      | some m =>
        let insertPos := m.idx + ((gget m.groups 1).getD []).length
        ofL ((strL code).take insertPos ++ strL "export default " ++ (strL code).drop insertPos)
      | none => code
  (GeminiCodeFixer.fixCode code).fixedCode

/-- The hard-coded failsafe at the end of `cleanupGeneratedCode`
(GeminiService.ts:719): if no line-anchored React import is present, remove
any stray React imports (and a broken `export default import React …` line),
then prepend the import at the very top. -/
def reactImportFailsafe (finalCode : String) : String :=
  if hasLineAnchoredReactImport (strL finalCode) then finalCode
  else
    let f1 := ofL (lineAnchoredRemoveAll importReactRemoveExt
      ((strL finalCode).length + 1) (strL finalCode) true)
    let f2 := if strStartsWith (jsTrim f1) "export default import" then
        ofL (lineAnchoredRemoveAll exportDefaultImportRemoveExt
          ((strL f1).length + 1) (strL f1) true)
      else f1
    "import React from \x27react\x27;\n\n" ++ jsTrim f2

/-- `GeminiServiceClass.cleanupGeneratedCode` (GeminiService.ts:540). -/
def cleanupGeneratedCode (code0 : String) : String :=
  reactImportFailsafe (cleanupPreFailsafe code0)

/-- `getFallbackComponent` (GeminiService.ts:943), with the description
interpolated at its two template slots. -/
def getFallbackComponent (description : String) : String :=
  "import React from \x27react\x27;\n\nexport default function App() \x7b\n  const [message, setMessage] = React.useState(\x27Welcome to " ++
  description ++
  "!\x27);\n\n  return (\n    <div className=\"p-6 max-w-md mx-auto\">\n      <div className=\"bg-white rounded-lg shadow-lg p-6\">\n        <h2 className=\"text-2xl font-bold mb-4 text-gray-800\">" ++
  description ++
  "</h2>\n        <p className=\"text-gray-600 mb-4\">\x7bmessage\x7d</p>\n        <button\n          onClick=\x7b() => setMessage(\x27App is working!\x27)\x7d\n          className=\"bg-blue-600 text-white px-4 py-2 rounded-lg hover:bg-blue-700 transition-colors\"\n        >\n          Click Me\n        </button>\n      </div>\n    </div>\n  );\n\x7d"

end GeminiService

namespace GeminiService

open VV

/-! ### API key, retry loops and entry points -/

def apiKeyErrorMsg : String :=
  "Gemini API key not configured. Please set VITE_GEMINI_API_KEY environment variable or configure in Settings."

def getApiKeyEnv : Option String → Except String String
  | some e => if e = "" then .error apiKeyErrorMsg else .ok e
  | none => .error apiKeyErrorMsg

/-- `getApiKey` (GeminiService.ts:31): the persisted local override
(`localStorage.getItem('gemini_api_key')`, `none` = absent) wins when truthy
(JS truthiness: a present empty string is falsy), then the build-time
environment variable, else the configuration error is thrown. -/
def getApiKey (localKey envKey : Option String) : Except String String :=
  match localKey with
  | some k => if k = "" then getApiKeyEnv envKey else .ok k
  | none => getApiKeyEnv envKey

/-- Outcome of one generation attempt's `fetch`/JSON step, abstracting the
network: the request threw (transport failure or timeout abort), the response
had no `data.candidates[0]`, or it carried a candidate text. -/
inductive GenAttempt where
  | fetchError (isTimeout : Bool) (msg : String)
  | noCandidate
  | candidate (text : String)
  deriving Repr, DecidableEq

/-- The retry loop of `generateReactComponent` (GeminiService.ts:197–535),
paired with the number of fetch attempts performed.  Per iteration: a thrown
fetch is caught (fallback on the last attempt); a candidate is validated raw
(`validateGeminiResponse`), cleaned (`cleanupGeneratedCode`) and re-validated
(`validateGeneratedCode`); any failure retries, and the final attempt's
failure returns `getFallbackComponent`. -/
def genLoopRun (description : String) (maxRetries : Nat) :
    Nat → List GenAttempt → String × Nat
  | _, [] => (getFallbackComponent description, 0)
  | attempt, a :: rest =>
    let next := fun () =>
      let r := genLoopRun description maxRetries (attempt + 1) rest
      (r.1, r.2 + 1)
    match a with
    | .fetchError _ _ =>
      if attempt = maxRetries - 1 then (getFallbackComponent description, 1)
      else next ()
    | .noCandidate =>
      if attempt = maxRetries - 1 then (getFallbackComponent description, 1)
      else next ()
    | .candidate text =>
      if !(validateGeminiResponse text).isValid then
        if attempt < maxRetries - 1 then next ()
        else (getFallbackComponent description, 1)
      else
        let code := cleanupGeneratedCode text
        if validateGeneratedCode code then (code, 1)
        else if attempt < maxRetries - 1 then next ()
        else (getFallbackComponent description, 1)

/-- `generateReactComponent` with `maxRetries = 3`. -/
def generateReactComponent (description : String) (attempts : List GenAttempt) : String :=
  (genLoopRun description 3 0 attempts).1

/-- The retry loop of `fixBrokenComponent` (GeminiService.ts:974–1107).  The
`throw` on the final attempt happens inside the `try`, so its own `catch`
re-throws it wrapped as `Failed to fix component: …`; a final timeout gets
the dedicated timeout message.  There is no raw-stage validation in this
flow. -/
def fixLoopRun (maxRetries : Nat) : Nat → List GenAttempt → Except String String × Nat
  | _, [] => (.error "Failed to fix component after all retry attempts", 0)
  | attempt, a :: rest =>
    let next := fun () =>
      let r := fixLoopRun maxRetries (attempt + 1) rest
      (r.1, r.2 + 1)
    match a with
    | .fetchError isTimeout msg =>
      if attempt = maxRetries - 1 then
        if isTimeout then
          (.error "Gemini API timeout: The request took longer than 2 minutes. The component may be too complex to fix automatically.", 1)
        else (.error ("Failed to fix component: " ++ msg), 1)
      else next ()
    | .noCandidate =>
      if attempt = maxRetries - 1 then
        (.error "Failed to fix component: Failed to generate valid fixed code after all retries", 1)
      else next ()
    | .candidate text =>
      let code := cleanupGeneratedCode text
      if validateGeneratedCode code then (.ok code, 1)
      else if attempt < maxRetries - 1 then next ()
      else
        (.error "Failed to fix component: Failed to generate valid fixed code after all retries", 1)

/-- The retry loop of `updateComponent` (GeminiService.ts:1118–1221), the
same shape as the fix loop with its own messages. -/
def updLoopRun (maxRetries : Nat) : Nat → List GenAttempt → Except String String × Nat
  | _, [] => (.error "Failed to update component after all retry attempts", 0)
  | attempt, a :: rest =>
    let next := fun () =>
      let r := updLoopRun maxRetries (attempt + 1) rest
      (r.1, r.2 + 1)
    match a with
    | .fetchError isTimeout msg =>
      if attempt = maxRetries - 1 then
        if isTimeout then
          (.error "Gemini API timeout: The request took longer than 2 minutes. Please try again with a simpler update request.", 1)
        else (.error ("Failed to update component: " ++ msg), 1)
      else next ()
    | .noCandidate =>
      if attempt = maxRetries - 1 then
        (.error "Failed to update component: Failed to generate valid updated code after all retries", 1)
      else next ()
    | .candidate text =>
      let code := cleanupGeneratedCode text
      if validateGeneratedCode code then (.ok code, 1)
      else if attempt < maxRetries - 1 then next ()
      else
        (.error "Failed to update component: Failed to generate valid updated code after all retries", 1)

/-- Outcome of the `generateAppInfo` call (GeminiService.ts:135): one fetch
whose JSON extraction either parses to a name/description pair or fails in
any way (throw, missing candidate, no JSON match), which the `catch`/fallback
turns into `{name: prompt, description: "A useful <prompt> application"}`. -/
inductive InfoAttempt where
  | failed
  | parsed (name description : String)
  deriving Repr, DecidableEq

def resolveAppInfo (prompt : String) : InfoAttempt → String × String
  | .parsed n d => (n, d)
  | .failed => (prompt, "A useful " ++ prompt ++ " application")

/-- JS UTF-16 `length` of a string. -/
def utf16Length (s : String) : Nat :=
  (strL s).foldl (fun acc c => acc + (if c.toNat ≥ 0x10000 then 2 else 1)) 0

def hexUpDigit (n : Nat) : Char :=
  (strL "0123456789ABCDEF").getD n '0'

/-- UTF-8 bytes of one character. -/
def utf8Bytes (c : Char) : List Nat :=
  let n := c.toNat
  if n < 0x80 then [n]
  else if n < 0x800 then [0xC0 + n / 0x40, 0x80 + n % 0x40]
  else if n < 0x10000 then
    [0xE0 + n / 0x1000, 0x80 + n / 0x40 % 0x40, 0x80 + n % 0x40]
  else
    [0xF0 + n / 0x40000, 0x80 + n / 0x1000 % 0x40, 0x80 + n / 0x40 % 0x40, 0x80 + n % 0x40]

/-- JS `encodeURIComponent`: unreserved characters pass through, everything
else is percent-encoded as UTF-8. -/
def encodeURIComponent (s : String) : String :=
  ofL ((strL s).flatMap (fun c =>
    if c.isAlpha || c.isDigit || c = '-' || c = '_' || c = '.' || c = '!' || c = '~' ||
        c = '*' || c = '\x27' || c = '(' || c = ')' then [c]
    else (utf8Bytes c).flatMap (fun b => ['%', hexUpDigit (b / 16), hexUpDigit (b % 16)])))

/-- `generateEmojiIcon` (GeminiService.ts:183). -/
def generateEmojiIcon (description : String) : String :=
  let emojis : List String := ["✨", "🎯", "📝", "🎨", "⚡", "🔥", "💡", "🚀", "🎪", "🌟"]
  let index := utf16Length description % emojis.length
  let svg := "<svg width=\"100\" height=\"100\" xmlns=\"http://www.w3.org/2000/svg\"><rect width=\"100\" height=\"100\" fill=\"#e0f2fe\" rx=\"20\"/><text x=\"50\" y=\"65\" font-size=\"50\" text-anchor=\"middle\">" ++
    (emojis.getD index "") ++ "</text></svg>"
  "data:image/svg+xml," ++ encodeURIComponent svg

/-- `generateIcon` (GeminiService.ts:177) skips the network call entirely. -/
def generateIcon (appDescription : String) : String := generateEmojiIcon appDescription

structure GeneratedApp where
  name : String
  description : String
  iconUrl : String
  componentCode : String
  deriving Repr, DecidableEq

/-- A flow result together with the number of generation-backend fetches it
performed. -/
structure FlowRun (α : Type) where
  result : α
  networkCalls : Nat
  deriving Repr, DecidableEq

/-- The "create" entry point `generateAppFromPrompt` (GeminiService.ts:109):
`getApiKey` first — a configuration error propagates before any fetch —
then `generateAppInfo` (one fetch), `generateIcon` (no fetch) and the
`generateReactComponent` retry loop. -/
def generateAppFromPrompt (localKey envKey : Option String) (prompt : String)
    (info : InfoAttempt) (attempts : List GenAttempt) :
    FlowRun (Except String GeneratedApp) :=
  match getApiKey localKey envKey with
  | .error e => ⟨.error e, 0⟩
  | .ok _ =>
    let appInfo := resolveAppInfo prompt info
    let iconUrl := generateIcon appInfo.2
    let run := genLoopRun appInfo.2 3 0 attempts
    ⟨.ok ⟨appInfo.1, appInfo.2, iconUrl, run.1⟩, 1 + run.2⟩

/-- The "fix" entry point `fixBrokenComponent` (GeminiService.ts:966):
`getApiKey` first, then the fix retry loop with `maxRetries = 2`.  (The
broken code, error list and description only shape the prompt text;
attempt outcomes absorb them.) -/
def fixBrokenComponent (localKey envKey : Option String) (attempts : List GenAttempt) :
    FlowRun (Except String String) :=
  match getApiKey localKey envKey with
  | .error e => ⟨.error e, 0⟩
  | .ok _ =>
    let run := fixLoopRun 2 0 attempts
    ⟨run.1, run.2⟩

/-- The "update" entry point `updateComponent` (GeminiService.ts:1110). -/
def updateComponent (localKey envKey : Option String) (attempts : List GenAttempt) :
    FlowRun (Except String String) :=
  match getApiKey localKey envKey with
  | .error e => ⟨.error e, 0⟩
  | .ok _ =>
    let run := updLoopRun 2 0 attempts
    ⟨run.1, run.2⟩

end GeminiService

namespace AppValidator

open VV

/-! ### AppValidator (src/unnamed/part_000) -/

structure ValidationResult where
  isValid : Bool
  errors : List String
  warnings : List String
  deriving Repr, DecidableEq

/-- Check 2's `dangerousPatterns` table: each regex is a literal (no
metacharacters beyond the escaped dot), so each test is substring
containment; `<script` carries the `i` flag. -/
def dangerousPatterns : List ((String → Bool) × String) := [
  (fun code => containsSub code "eval(", "eval() is not allowed for security reasons"),
  (fun code => containsSub code "Function(", "Function constructor is not allowed"),
  (fun code => containsSub code "innerHTML", "innerHTML is not allowed, use React rendering instead"),
  (fun code => containsSub code "dangerouslySetInnerHTML", "dangerouslySetInnerHTML is not allowed"),
  (fun code => containsSubCI code "<script", "Script tags are not allowed"),
  (fun code => containsSub code "document.write", "document.write is not allowed"),
  (fun code => containsSub code "window.location", "window.location manipulation is not allowed")]

/-- Check 6's `dangerousAPIs` table (warnings only). -/
def dangerousAPIs : List ((String → Bool) × String) := [
  (fun code => containsSub code "fetch(", "Warning: Component makes external API calls"),
  (fun code => containsSub code "XMLHttpRequest", "XMLHttpRequest is not recommended"),
  (fun code => containsSub code "axios.", "Warning: Component uses axios for API calls")]

/-- `const \w+ = \(\) => {` with the `i` flag. -/
def constArrowAt (cs : List Char) : Bool :=
  match eatLitCI (strL "const ") cs with
  | none => false
  | some r1 =>
    match r1.span wordChar with
    | (w, r2) => w.length ≥ 1 && (eatLitCI (strL " = () => \x7b") r2).isSome

def constArrowTest : List Char → Bool
  | [] => false
  | c :: rest => constArrowAt (c :: rest) || constArrowTest rest

/-- Check 7: `isFunctionComponent`. -/
def isFunctionComponent (code : String) : Bool :=
  containsSubCI code "export default function" ||
    containsSubCI code "export default () =>" ||
    constArrowTest (strL code)

/-- Replace every occurrence of a literal substring (JS `replace(/lit/g, r)`
for a metacharacter-free literal). -/
def replaceSubAllL (needle repl : List Char) : Nat → List Char → List Char
  | 0, cs => cs
  | _ + 1, [] => []
  | fuel + 1, c :: rest =>
    if isPrefL needle (c :: rest) then
      repl ++ replaceSubAllL needle repl fuel ((c :: rest).drop needle.length)
    else c :: replaceSubAllL needle repl fuel rest

def replaceSubAll (s needle repl : String) : String :=
  ofL (replaceSubAllL (strL needle) (strL repl) (strL s).length (strL s))

/-- `function.*\{[\s\S]*return[\s\S]*\}` — a `function` with a `{` on the
same line, then a `return`, then a `}`. -/
def basicStructureAfter (cs : List Char) : Bool :=
  match findSubIdxL ['\x7b'] (cs.takeWhile dotChar) with
  | none => false
  | some j =>
    let afterBrace := cs.drop (j + 1)
    match findSubIdxL (strL "return") afterBrace with
    | none => false
    | some k => (afterBrace.drop (k + 6)).any (fun c => c = '\x7d')

def hasBasicStructureL : List Char → Bool
  | [] => false
  | c :: rest =>
    (isPrefL (strL "function") (c :: rest) && basicStructureAfter ((c :: rest).drop 8)) ||
      hasBasicStructureL rest

/-- Check 8 (the `try` block never throws: it is a regex test). -/
def hasBasicStructure (componentCode : String) : Bool :=
  hasBasicStructureL (strL (replaceSubAll componentCode "export default " ""))

/-- `voidElements` of `checkJSXIssues`. -/
def voidElements : List String := ["img", "input", "br", "hr", "meta", "link"]

def containsSubCIL (needle l : List Char) : Bool :=
  containsSubL (needle.map lcChar) (l.map lcChar)

/-- `new RegExp("<el[^>]*>[\\s\\S]*?</el>", "gi").test`: a `<el…>` opening
(no `>` before its closing `>`) followed anywhere later by `</el>`,
case-insensitively. -/
def voidElementAt (el : List Char) (cs : List Char) : Bool :=
  match eatLitCI ('<' :: el) cs with
  | none => false
  | some r1 =>
    match r1.span (fun c => !(c = '>')) with
    | (_, '>' :: r2) => containsSubCIL ('<' :: '/' :: el ++ ['>']) r2
    | _ => false

def voidElementScan (el : List Char) : List Char → Bool
  | [] => false
  | c :: rest => voidElementAt el (c :: rest) || voidElementScan el rest

/-- `/\sclass=["']/i` -/
def classAttrTest : List Char → Bool
  | [] => false
  | c :: rest =>
    (wsChar c &&
      (match eatLitCI (strL "class=") rest with
       | some (q :: _) => q = '"' || q = '\x27'
       | _ => false)) ||
      classAttrTest rest

/-- `checkJSXIssues` (part_000:187). -/
def checkJSXIssues (code : String) : List String :=
  (voidElements.filterMap (fun el =>
    if voidElementScan (strL el) (strL code) then some ("<" ++ el ++ "> should be self-closing")
    else none)) ++
    (if classAttrTest (strL code) then ["Use className instead of class in JSX"] else [])

def hookNames : List String :=
  ["useState", "useEffect", "useCallback", "useMemo", "useRef", "useContext"]

/-- `(?<!React\.)(useState|useEffect|useCallback|useMemo|useRef|useContext)\s*\(`
at the current position; `pre` is the reversed left context. -/
def bareHookAt (pre cs : List Char) : Bool :=
  !isPrefL (strL "React.").reverse pre &&
    hookNames.any (fun h =>
      match eatLit (strL h) cs with
      | some rest => (rest.dropWhile wsChar).head? = some '('
      | none => false)

def bareHookScan : List Char → List Char → Bool
  | _, [] => false
  | pre, c :: rest => bareHookAt pre (c :: rest) || bareHookScan (c :: pre) rest

/-- `if\s*\([^)]*\)[^{]*{[^}]*React\.(useState|useEffect|useCallback|useMemo|useRef)`
at the current position. -/
def condHookAt (cs : List Char) : Bool :=
  match eatLit (strL "if") cs with
  | none => false
  | some r1 =>
    match r1.dropWhile wsChar with
    | '(' :: r3 =>
      match r3.span (fun c => !(c = ')')) with
      | (_, ')' :: r5) =>
        match r5.span (fun c => !(c = '\x7b')) with
        | (_, '\x7b' :: r7) =>
          let region := r7.takeWhile (fun c => !(c = '\x7d'))
          ["useState", "useEffect", "useCallback", "useMemo", "useRef"].any (fun h =>
            containsSubL (strL ("React." ++ h)) region)
        | _ => false
      | _ => false
    | _ => false

def condHookScan : List Char → Bool
  | [] => false
  | c :: rest => condHookAt (c :: rest) || condHookScan rest

/-- `checkReactHooks` (part_000:211). -/
def checkReactHooks (code : String) : List String :=
  (if bareHookScan [] (strL code) then
    ["Hooks must be prefixed with React (e.g., React.useState instead of useState)"]
  else []) ++
    (if condHookScan (strL code) then ["React hooks should not be called conditionally"] else [])

/-- `/\sonclick=/i`-style test: whitespace, then the attribute name
(case-insensitively when `ci`), then `=`. -/
def attrTest (ci : Bool) (name : List Char) : List Char → Bool
  | [] => false
  | c :: rest =>
    (wsChar c &&
      (if ci then (eatLitCI (name ++ ['=']) rest).isSome
       else (eatLit (name ++ ['=']) rest).isSome)) ||
      attrTest ci name rest

/-- `checkEventHandlers` (part_000:229). -/
def checkEventHandlers (code : String) : List String :=
  (if attrTest true (strL "onclick") (strL code) && !attrTest false (strL "onClick") (strL code) then
    ["Use onClick instead of onclick in JSX"]
  else []) ++
    (if attrTest true (strL "onchange") (strL code) && !attrTest false (strL "onChange") (strL code) then
      ["Use onChange instead of onchange in JSX"]
    else [])

/-- `testCode.replace(/<[^>]+>/g, '""')` of `sandboxedSyntaxCheck`. -/
def replaceJsxTagsGo : Nat → List Char → List Char
  | 0, cs => cs
  | _ + 1, [] => []
  | fuel + 1, c :: rest =>
    if c = '<' then
      match rest.span (fun x => !(x = '>')) with
      | (body, '>' :: r3) =>
        if body.length ≥ 1 then '"' :: '"' :: replaceJsxTagsGo fuel r3
        else c :: replaceJsxTagsGo fuel rest
      | _ => c :: replaceJsxTagsGo fuel rest
    else c :: replaceJsxTagsGo fuel rest

/-- `=>\s*{` -/
def arrowBraceTest : List Char → Bool
  | [] => false
  | c :: rest =>
    (c = '=' &&
      (match rest with
       | '>' :: r2 => (r2.dropWhile wsChar).head? = some '\x7b'
       | _ => false)) ||
      arrowBraceTest rest

/-- `sandboxedSyntaxCheck` (part_000:245): strip JSX-looking tags and
`export default `, then require a `function` keyword or an `=> {` arrow.
(The quote-counting block is disabled in the source; `returnKeywords` is
computed but unused; the `try` never throws.) -/
def sandboxedSyntaxCheck (componentCode : String) : List String :=
  let t1 := replaceJsxTagsGo (strL componentCode).length (strL componentCode)
  let testCode := replaceSubAll (ofL t1) "export default " ""
  if !containsSub testCode "function" && !arrowBraceTest (strL testCode) then
    ["No function definition found"]
  else []

/-- `testRuntimeSyntax` (part_000:155): the four sub-checks' messages in
order (its `try` never throws in this pure model). -/
def testRuntimeSyntax (componentCode : String) : List String :=
  checkJSXIssues componentCode ++ checkReactHooks componentCode ++
    checkEventHandlers componentCode ++ sandboxedSyntaxCheck componentCode

/-- `AppValidator.validate` (part_000:10): checks 1–9 in source order.
Check 3 computes `hasHooks` but never reports; check 8's `try` cannot throw.
`isValid` is `errors.length === 0`. -/
def validate (componentCode : String) : ValidationResult :=
  let errors :=
    (if !containsSub componentCode "export default" then
      ["Component must have an export default statement"] else []) ++
    (dangerousPatterns.filterMap (fun pm => if pm.1 componentCode then some pm.2 else none)) ++
    (if !containsSub componentCode "return" then
      ["Component must have a return statement"] else []) ++
    (if countCharL '\x7b' (strL componentCode) ≠ countCharL '\x7d' (strL componentCode) then
      ["Unbalanced curly braces detected"] else []) ++
    (if countCharL '(' (strL componentCode) ≠ countCharL ')' (strL componentCode) then
      ["Unbalanced parentheses detected"] else []) ++
    (if countCharL '[' (strL componentCode) ≠ countCharL ']' (strL componentCode) then
      ["Unbalanced square brackets detected"] else []) ++
    (if !isFunctionComponent componentCode then
      ["Component must be a functional component"] else []) ++
    (if !hasBasicStructure componentCode then
      ["Component must have a function with a return statement"] else []) ++
    testRuntimeSyntax componentCode
  let warnings :=
    dangerousAPIs.filterMap (fun pm => if pm.1 componentCode then some pm.2 else none)
  ⟨errors.isEmpty, errors, warnings⟩

/-- `AppValidator.canSafelyRender` (part_000:286): valid when no error
remains after filtering out those that start with `"Warning:"`. -/
def canSafelyRender (componentCode : String) : Bool :=
  ((validate componentCode).errors.filter (fun e => !strStartsWith e "Warning:")).isEmpty

end AppValidator

namespace RuntimeTester

/-! ### RuntimeTester.testComponent (RuntimeTester.ts:14) as a transition system

The browser pieces are embedded as an event system: the promise body appends
a hidden sandbox iframe, registers a timeout callback and a 100 ms polling
interval, and the iframe's scripts asynchronously publish `reactReady` and
`renderComplete`/`hasContent`.  Handlers run atomically on the single JS
thread, so each handler is one transition:

* `timeoutFires` (RuntimeTester.ts:152): enabled unless the timeout was
  cleared or already fired; it runs `cleanup()` (clearing the timeout and
  removing the iframe from the document) and then resolves.  It does *not*
  clear the polling interval.
* `pollTick` (RuntimeTester.ts:173): returns early when the iframe is gone
  (`contentWindow` is `null`), when the libraries have not loaded, or when
  `renderComplete` is still undefined; otherwise it clears the interval,
  collects errors, runs `cleanup()` and resolves.
* `libsLoaded` / `renderFinished` model the sandbox scripts publishing their
  flags (only observable while the iframe is attached).

Setup either reaches `appendChild` (iframe attached, nothing resolved) or
throws first, resolving the failure result without an attached iframe
(RuntimeTester.ts:226). -/

structure RTState where
  attached : Bool
  resolved : Bool
  timeoutCleared : Bool
  timeoutFired : Bool
  intervalCleared : Bool
  reactReady : Bool
  renderDone : Option Bool
  deriving Repr, DecidableEq

/-- State after a successful setup (`document.body.appendChild(iframe)` ran). -/
def setupOk : RTState :=
  ⟨true, false, false, false, false, false, none⟩

/-- State after the setup `catch` resolved the failure result: the iframe was
never appended to the document. -/
def setupFailed : RTState :=
  ⟨false, true, false, false, false, false, none⟩

inductive RTEvent where
  | libsLoaded
  | renderFinished (hasContent : Bool)
  | timeoutFires
  | pollTick
  deriving Repr, DecidableEq

def step (s : RTState) (e : RTEvent) : RTState :=
  match e with
  | .libsLoaded => if s.attached then { s with reactReady := true } else s
  | .renderFinished b => if s.attached then { s with renderDone := some b } else s
  | .timeoutFires =>
    if s.timeoutCleared || s.timeoutFired then s
    else
      { s with
        timeoutFired := true
        timeoutCleared := true
        attached := false
        resolved := true }
  | .pollTick =>
    if s.intervalCleared then s
    else if !s.attached then s
    else if !s.reactReady then s
    else
      match s.renderDone with
      | none => s
      | some _ =>
        { s with
          intervalCleared := true
          timeoutCleared := true
          attached := false
          resolved := true }

def runRT (s : RTState) (evs : List RTEvent) : RTState := evs.foldl step s

end RuntimeTester

namespace VV

/-! ### Specification-side reference definitions

These definitions follow the specification's words (not the source) and are
used only to state hypotheses/conclusions of claims that compare the code
against the spec's notion of string/template/comment bodies. -/

/-- Frame of the reference lexer: inside a template-literal body, or inside
the code of a `${…}` interpolation at a given extra brace depth. -/
inductive JFrame where
  | tmpl
  | interp (braceDepth : Nat)
  deriving Repr, DecidableEq

/-- Skip a `'`/`"` string body (after its opening quote), honouring `\`
escapes; returns the text after the closing quote. -/
def skipStringBody (q : Char) : Nat → List Char → List Char
  | 0, cs => cs
  | _ + 1, [] => []
  | fuel + 1, c :: rest =>
    if c = q then rest
    else if c = '\\' then skipStringBody q fuel (rest.drop 1)
    else skipStringBody q fuel rest

/-- Reference lexer (spec §4.4: "string/template/comment bodies are blanked
before counting"): a left-to-right JavaScript lexer that drops the contents
of `'…'`, `"…"`, `` `…` `` (including nested templates inside `${…}`
interpolations), `//` and `/*…*/` comments, and the interpolation delimiters
themselves, keeping exactly the code-level characters. -/
def specStripBodies : Nat → List JFrame → List Char → List Char
  | 0, _, _ => []
  | _ + 1, _, [] => []
  | fuel + 1, stack, c :: rest =>
    match stack with
    | .tmpl :: outer =>
      if c = '\x60' then specStripBodies fuel outer rest
      else if c = '\\' then specStripBodies fuel stack (rest.drop 1)
      else if c = '$' && rest.head? = some '\x7b' then
        specStripBodies fuel (.interp 0 :: .tmpl :: outer) (rest.drop 1)
      else specStripBodies fuel stack rest
    | frames =>
      if c = '\x27' || c = '"' then
        specStripBodies fuel frames (skipStringBody c (rest.length + 1) rest)
      else if c = '\x60' then specStripBodies fuel (.tmpl :: frames) rest
      else if isPrefL ['/', '/'] (c :: rest) then
        specStripBodies fuel frames ((c :: rest).dropWhile (fun x => !(x = '\n')))
      else if isPrefL ['/', '*'] (c :: rest) then
        match findSubIdxL ['*', '/'] (rest.drop 1) with
        | some i => specStripBodies fuel frames ((rest.drop 1).drop (i + 2))
        | none => specStripBodies fuel frames []
      else
        match frames with
        | .interp d :: outer =>
          if c = '\x7b' then c :: specStripBodies fuel (.interp (d + 1) :: outer) rest
          else if c = '\x7d' then
            if d = 0 then specStripBodies fuel outer rest
            else c :: specStripBodies fuel (.interp (d - 1) :: outer) rest
          else c :: specStripBodies fuel frames rest
        | _ => c :: specStripBodies fuel frames rest

/-- The code-level characters of a source text, per the reference lexer. -/
def specCodeChars (s : String) : List Char :=
  specStripBodies (2 * (strL s).length + 2) [] (strL s)

/-- Are the code-level brackets (outside every string/template/comment body)
balanced by count? -/
def codeLevelBracketsBalanced (s : String) : Bool :=
  countCharL '\x7b' (specCodeChars s) = countCharL '\x7d' (specCodeChars s) &&
    (countCharL '(' (specCodeChars s) = countCharL ')' (specCodeChars s) &&
      countCharL '[' (specCodeChars s) = countCharL ']' (specCodeChars s))

/-- Are the raw bracket counts of the full text unbalanced (i.e. some
imbalance exists somewhere, bodies included)? -/
def rawBracketsImbalanced (s : String) : Bool :=
  !(countCharL '\x7b' (strL s) = countCharL '\x7d' (strL s) &&
    (countCharL '(' (strL s) = countCharL ')' (strL s) &&
      countCharL '[' (strL s) = countCharL ']' (strL s)))

/-- Claim-side reading of C4's antecedent: after trimming, the candidate ends
with a dangling `+ - && || =`, comma/semicolon, colon, or an opening
parenthesis/bracket. -/
def endsWithDanglingTok (s : String) : Bool :=
  GeminiService.danglingRevTest (strL s).reverse

/-- Claim-side reading of C6's conclusion: a `${` occurring outside a
backtick-delimited template literal (backticks read as toggling
delimiters). -/
def interpOutsideBt : Bool → List Char → Bool
  | _, [] => false
  | inBt, c :: rest =>
    if c = '\x60' then interpOutsideBt (!inBt) rest
    else if !inBt && c = '$' && rest.head? = some '\x7b' then true
    else interpOutsideBt inBt rest

def hasInterpOutsideBackticks (s : String) : Bool := interpOutsideBt false (strL s)

end VV

namespace VV

/-! ### Claim-side predicates and concrete claim inputs -/

/-- One generation attempt "fails" in the sense of C1: the fetch threw
(network error or timeout), the response had no candidate, or the candidate
fails raw-stage validation or post-cleanup validation. -/
def genAttemptFails : GeminiService.GenAttempt → Prop
  | .candidate t =>
    (GeminiService.validateGeminiResponse t).isValid = false ∨
      GeminiService.validateGeneratedCode (GeminiService.cleanupGeneratedCode t) = false
  | _ => True

/-- One fix-flow attempt "fails": the fetch threw, no candidate came back, or
the cleaned candidate fails validation (the fix flow has no raw stage). -/
def fixAttemptFails : GeminiService.GenAttempt → Prop
  | .candidate t =>
    GeminiService.validateGeneratedCode (GeminiService.cleanupGeneratedCode t) = false
  | _ => True

/-- C2's input `${a} ${b}`. -/
def c2Input : String := "$\x7ba\x7d $\x7bb\x7d"

/-- C2's input for `CodeFixer.fixAll`: a 12-deep nested interpolation, which
exceeds `fixNestedTemplateLiterals`' 10-pass bound. -/
def c2NestInput : String :=
  "$\x7b$\x7b$\x7b$\x7b$\x7b$\x7b$\x7b$\x7b$\x7b$\x7b$\x7b$\x7bx\x7d\x7d\x7d\x7d\x7d\x7d\x7d\x7d\x7d\x7d\x7d\x7d"

/-- C3's counterexample: `` const s = `a${`b{`}c`; `` — a nested template
literal whose inner body holds the only unbalanced bracket. -/
def c3Input : String := "const s = \x60a$\x7b\x60b\x7b\x60\x7dc\x60;"

/-- C3 amended, simple-literal positives: imbalance only inside a plain
string/template/comment body. -/
def c3Sq : String := "const a = \x27\x7d\x7d\x7d\x7b\x27;"

def c3Dq : String := "const a = \"\x7b\x7b\x7b\";"

def c3Bt : String := "const t = \x60)))\x60;"

def c3Line : String := "// \x7d\x7d\x7d\nconst x = 1;"

def c3Block : String := "/* ((( */ const y = 2;"

/-- C3 amended: input showing `AppValidator.validate`'s check 5 counts raw
brackets (a `}` inside a string is reported as imbalance). -/
def c3AppInput : String := "export default function App() \x7b return \"\x7d\"; \x7d"

/-- C4 witness inputs: one candidate ending in a dangling comma, one ending
cleanly in `}`; both pass raw checks 1–5. -/
def c4CommaInput : String :=
  "export default function App() \x7b const filler = 1; return (<div>ok</div>); \x7d ,"

def c4CleanInput : String :=
  "export default function App() \x7b const filler = 1; return (<div>ok</div>); \x7d"

/-- C4 witness input: a candidate whose trimmed text ends in a letter —
neither a dangling token nor `\x7d` — and passes raw checks 1–5, so check 7
must reject it. -/
def c4LetterInput : String :=
  "export default function App() \x7b const filler = 1; return (<div>ok</div>); \x7d foo"

/-- C5's input: a component with one bare `useState(0)` call and one
already-prefixed `React.useEffect` call, and no other error patterns. -/
def c5Input : String :=
  "import React from \x27react\x27;\n\nexport default function App() \x7b\n  const [count, setCount] = useState(0);\n  React.useEffect(() => \x7b\x7d, []);\n  return <div>\x7bcount\x7d</div>;\n\x7d"

/-- C5's expected repair output: the bare call namespaced, the prefixed call
untouched. -/
def c5Expected : String :=
  "import React from \x27react\x27;\n\nexport default function App() \x7b\n  const [count, setCount] = React.useState(0);\n  React.useEffect(() => \x7b\x7d, []);\n  return <div>\x7bcount\x7d</div>;\n\x7d"

/-- The missing-prefix message of `AppValidator.checkReactHooks`. -/
def hookMsg : String :=
  "Hooks must be prefixed with React (e.g., React.useState instead of useState)"

/-- C6's input. -/
def c6Input : String := "className=\x7bbase $\x7bisActive ? \x27a\x27 : \x27b\x27\x7d\x7d"

/-- C6's expected output. -/
def c6Expected : String := "className=\x7b\x60base $\x7bisActive ? \x27a\x27 : \x27b\x27\x7d\x60\x7d"

/-- C9's counterexample input: a component whose React import sits at the
start of the last line instead of the first. -/
def c9Input : String :=
  "export default function App() \x7b\n  return <div>hi</div>;\n\x7d\nimport React from \x27react\x27;"

/-- The exact React import line. -/
def reactImportLine : String := "import React from \x27react\x27;"

end VV
namespace VV

open GeminiService

/-! ## Theorems

Each claim `Cn` of the specification is settled by the theorem named
`Cn_…` below; helper lemmas precede the claim theorems they serve. -/

/-- If every attempt in the list fails (in the sense of `genAttemptFails`),
the generation retry loop returns the fallback component. -/
theorem genLoopRun_fallback (d : String) (l : List GenAttempt) :
    ∀ attempt, (∀ a ∈ l, genAttemptFails a) →
    (genLoopRun d 3 attempt l).1 = getFallbackComponent d := by
  induction l with
  | nil => intro attempt _; rfl
  | cons a rest ih =>
    intro attempt h
    have ha := h a (List.mem_cons_self a rest)
    have hrest : ∀ x ∈ rest, genAttemptFails x := fun x hx => h x (List.mem_cons_of_mem a hx)
    cases a with
    | fetchError t m =>
      simp only [genLoopRun]
      split
      · rfl
      · simpa using ih (attempt + 1) hrest
    | noCandidate =>
      simp only [genLoopRun]
      split
      · rfl
      · simpa using ih (attempt + 1) hrest
    | candidate t =>
      cases hv : (validateGeminiResponse t).isValid with
      | false =>
        simp only [genLoopRun, hv, Bool.not_false, eq_self_iff_true, if_true]
        split
        · simpa using ih (attempt + 1) hrest
        · rfl
      | true =>
        have hcl : validateGeneratedCode (cleanupGeneratedCode t) = false := by
          rcases ha with ha | ha
          · rw [hv] at ha; cases ha
          · exact ha
        simp only [genLoopRun, hv, hcl, Bool.not_true, Bool.false_eq_true, if_false]
        split
        · simpa using ih (attempt + 1) hrest
        · rfl

/-- If every attempt in the list fails (in the sense of `fixAttemptFails`),
the fix retry loop ends in an `Except.error`. -/
theorem fixLoopRun_error (l : List GenAttempt) :
    ∀ attempt, (∀ a ∈ l, fixAttemptFails a) →
    ∃ e, (fixLoopRun 2 attempt l).1 = Except.error e := by
  induction l with
  | nil => intro attempt _; exact ⟨_, rfl⟩
  | cons a rest ih =>
    intro attempt h
    have ha := h a (List.mem_cons_self a rest)
    have hrest : ∀ x ∈ rest, fixAttemptFails x := fun x hx => h x (List.mem_cons_of_mem a hx)
    cases a with
    | fetchError t m =>
      simp only [fixLoopRun]
      split
      · split
        · exact ⟨_, rfl⟩
        · exact ⟨_, rfl⟩
      · simpa using ih (attempt + 1) hrest
    | noCandidate =>
      simp only [fixLoopRun]
      split
      · exact ⟨_, rfl⟩
      · simpa using ih (attempt + 1) hrest
    | candidate t =>
      have hcl : validateGeneratedCode (cleanupGeneratedCode t) = false := ha
      simp only [fixLoopRun, hcl, Bool.false_eq_true, if_false]
      split
      · simpa using ih (attempt + 1) hrest
      · exact ⟨_, rfl⟩

/-- C1: with an API key configured, when all 3 generation attempts fail
(network error, timeout, no candidate, raw-stage or post-cleanup validation
failure), `generateReactComponent` returns the static fallback component and
never throws, and the fallback itself passes `validateGeneratedCode`; under
the same all-attempts-fail condition `fixBrokenComponent` ends with an
`Except.error` after exhausting its 2 attempts. -/
theorem C1_retry_exhaustion_fallback (description key : String) (envKey : Option String)
    (genAtts fixAtts : List GenAttempt)
    (hkey : key ≠ "") (_hlen : genAtts.length = 3) (_hflen : fixAtts.length = 2)
    (hg : ∀ a ∈ genAtts, genAttemptFails a) (hf : ∀ a ∈ fixAtts, fixAttemptFails a) :
    generateReactComponent description genAtts = getFallbackComponent description ∧
    (∃ e, (fixBrokenComponent (some key) envKey fixAtts).result = Except.error e) ∧
    validateGeneratedCode (getFallbackComponent "a counter") = true := by
  refine ⟨genLoopRun_fallback description genAtts 0 hg, ?_, by decide⟩
  simp only [fixBrokenComponent, getApiKey, hkey, if_false]
  exact fixLoopRun_error fixAtts 0 hf

/-- C1 witness: three concrete failing generation attempts yield the
fallback, two concrete failing fix attempts yield an error. -/
theorem C1_retry_exhaustion_fallback_witness :
    generateReactComponent "a counter"
        [.fetchError true "aborted", .fetchError true "aborted", .fetchError false "HTTP 500"] =
      getFallbackComponent "a counter" ∧
    (∃ e, (fixBrokenComponent (some "k") none
        [.fetchError true "aborted", .noCandidate]).result = Except.error e) ∧
    validateGeneratedCode (getFallbackComponent "a counter") = true :=
  C1_retry_exhaustion_fallback "a counter" "k" none _ _ (by decide) (by decide) (by decide)
    (by intro a ha; fin_cases ha <;> trivial)
    (by intro a ha; fin_cases ha <;> trivial)

/-- C2 counterexample: `fixCode` is not idempotent — on the input
`${a} ${b}` the first pass backtick-wraps only the first interpolation, and
a second pass changes the output again. -/
theorem C2_fixCode_not_idempotent_counterexample :
    (GeminiCodeFixer.fixCode ((GeminiCodeFixer.fixCode c2Input).fixedCode)).fixedCode ≠
      (GeminiCodeFixer.fixCode c2Input).fixedCode := by decide

/-- C2 (amended): the repair pipeline is *not* idempotent — there are inputs
on which a second `GeminiCodeFixer.fixCode` pass changes the first pass's
output, and inputs on which a second `CodeFixer.fixAll` pass changes the
first pass's output (nesting deeper than `fixNestedTemplateLiterals`' 10
iterations). -/
theorem C2_repair_not_idempotent :
    (∃ s : String,
      (GeminiCodeFixer.fixCode ((GeminiCodeFixer.fixCode s).fixedCode)).fixedCode ≠
        (GeminiCodeFixer.fixCode s).fixedCode) ∧
    (∃ s : String, CodeFixer.fixAll (CodeFixer.fixAll s) ≠ CodeFixer.fixAll s) :=
  ⟨⟨c2Input, by decide⟩, ⟨c2NestInput, by decide⟩⟩

/-- C3 counterexample: on `` const s = `a${`b{`}c`; `` the only bracket
imbalance lies inside a (nested) template-literal body — the code-level
brackets are balanced while the raw counts are not — yet
`hasBalancedBrackets` reports the brackets as unbalanced: its sequential
regex blanking mis-lexes nested templates. -/
theorem C3_nested_template_counterexample :
    codeLevelBracketsBalanced c3Input = true ∧
    rawBracketsImbalanced c3Input = true ∧
    GeminiService.hasBalancedBrackets c3Input = false :=
  ⟨by decide, by decide, by decide⟩

/-- C3 (amended): `hasBalancedBrackets` does blank simple single-quoted,
double-quoted, template-literal, line-comment and block-comment bodies
before counting (each sample is raw-unbalanced only inside such a body and
passes), but the guarantee does not extend to nested template literals, and
`AppValidator.validate`'s check 5 counts raw brackets without any blanking
(a `}` inside a plain string is reported as imbalance). -/
theorem C3_blanking_scope :
    (GeminiService.hasBalancedBrackets c3Sq = true ∧ rawBracketsImbalanced c3Sq = true) ∧
    (GeminiService.hasBalancedBrackets c3Dq = true ∧ rawBracketsImbalanced c3Dq = true) ∧
    (GeminiService.hasBalancedBrackets c3Bt = true ∧ rawBracketsImbalanced c3Bt = true) ∧
    (GeminiService.hasBalancedBrackets c3Line = true ∧ rawBracketsImbalanced c3Line = true) ∧
    (GeminiService.hasBalancedBrackets c3Block = true ∧ rawBracketsImbalanced c3Block = true) ∧
    ("Unbalanced curly braces detected" ∈ (AppValidator.validate c3AppInput).errors ∧
      codeLevelBracketsBalanced c3AppInput = true) :=
  ⟨⟨by decide, by decide⟩, ⟨by decide, by decide⟩, ⟨by decide, by decide⟩,
    ⟨by decide, by decide⟩, ⟨by decide, by decide⟩, ⟨by decide, by decide⟩⟩

theorem dropWhile_idem (p : Char → Bool) (l : List Char) :
    (l.dropWhile p).dropWhile p = l.dropWhile p := by
  induction l with
  | nil => rfl
  | cons c cs ih =>
    by_cases h : p c
    · simp [List.dropWhile_cons, h, ih]
    · simp [List.dropWhile_cons, h]

theorem dropWhile_head_false (p : Char → Bool) (l : List Char) :
    ∀ c cs, l.dropWhile p = c :: cs → p c = false := by
  induction l with
  | nil => intro c cs h; cases h
  | cons x xs ih =>
    intro c cs h
    by_cases hx : p x
    · rw [List.dropWhile_cons, if_pos hx] at h; exact ih c cs h
    · rw [List.dropWhile_cons, if_neg hx] at h
      cases h
      simpa using hx

/-- Trimming the end of an already-trimmed string changes nothing. -/
theorem jsTrimEndL_jsTrimL (l : List Char) : jsTrimEndL (jsTrimL l) = jsTrimL l := by
  simp [jsTrimL, jsTrimEndL, List.reverse_reverse, dropWhile_idem]

theorem reverse_drop_eq (l : List Char) (n : Nat) :
    (l.drop n).reverse = l.reverse.take (l.length - n) := by
  induction l generalizing n with
  | nil => simp
  | cons c cs ih =>
    cases n with
    | zero => simp
    | succ n =>
      rw [List.drop_succ_cons, ih, List.reverse_cons,
        List.take_append_of_le_length (by simp [Nat.sub_le])]
      simp [Nat.succ_sub_succ]

/-- The dangling-token test reads at most 2 characters, so truncating the
reversed text below neither 2 nor its length changes nothing. -/
theorem danglingRevTest_take (r : List Char) (k : Nat) (hk : 2 ≤ k ∨ r.length ≤ k) :
    danglingRevTest (r.take k) = danglingRevTest r := by
  rcases hk with hk | hk
  · obtain ⟨k2, rfl⟩ : ∃ k2, k = k2 + 2 := ⟨k - 2, by omega⟩
    match r with
    | [] => simp
    | [c] => rw [List.take_of_length_le (by simp)]
    | c :: d :: r2 =>
      show danglingRevTest (c :: d :: r2.take k2) = _
      simp [danglingRevTest]
  · rw [List.take_of_length_le hk]

/-- On a text whose last character is not whitespace, the last-50-characters
dangling test equals the dangling test of the whole reversed text. -/
theorem trunc_core (l : List Char)
    (hhead : ∀ c t, l.reverse = c :: t → wsChar c = false) :
    danglingRevTest ((takeRightL 50 l).reverse.dropWhile wsChar) = danglingRevTest l.reverse := by
  rw [takeRightL, reverse_drop_eq]
  cases hrev : l.reverse with
  | nil => simp [hrev]
  | cons c t =>
    have hc : wsChar c = false := hhead c t hrev
    have hlen : l.length = t.length + 1 := by
      rw [← List.length_reverse l, hrev]; rfl
    have hK : ∃ K, l.length - (l.length - 50) = K + 1 ∧ (2 ≤ K + 1 ∨ (c :: t).length ≤ K + 1) := by
      rcases le_or_lt l.length 50 with h | h
      · exact ⟨l.length - 1, by omega, Or.inr (by simp; omega)⟩
      · exact ⟨49, by omega, Or.inl (by omega)⟩
    obtain ⟨K, hKeq, hKcase⟩ := hK
    rw [hKeq]
    have htake : (c :: t).take (K + 1) = c :: t.take K := rfl
    rw [htake, List.dropWhile_cons, if_neg (by simp [hc])]
    have := danglingRevTest_take (c :: t) (K + 1) hKcase
    rw [htake] at this
    exact this

/-- On a trimmed candidate, check 6's truncation test is exactly "the
trimmed text ends with a dangling token". -/
theorem truncationTriggered_trim (raw : String) :
    truncationTriggered (jsTrim raw) = endsWithDanglingTok (jsTrim raw) := by
  have hrev : (jsTrimL (strL raw)).reverse =
      List.dropWhile wsChar ((List.dropWhile wsChar (strL raw)).reverse) := by
    simp [jsTrimL]
  have hhead : ∀ c t, (jsTrimL (strL raw)).reverse = c :: t → wsChar c = false := by
    intro c t h
    rw [hrev] at h
    exact dropWhile_head_false wsChar _ c t h
  show danglingRevTest
      ((takeRightL 50 (jsTrimEndL (jsTrimL (strL raw)))).reverse.dropWhile wsChar) =
    danglingRevTest (jsTrimL (strL raw)).reverse
  rw [jsTrimEndL_jsTrimL]
  exact trunc_core _ hhead

/-- C4: for every raw candidate, if the trimmed text ends with a dangling
operator/comma/semicolon/colon/open parenthesis or bracket, then
`validateGeminiResponse` rejects it; if moreover checks 1–5 pass, the
reported reason is truncation-classified ("Response appears truncated …");
if the trimmed text does *not* end with `\x7d`, `validateGeminiResponse`
also rejects it, and when checks 1–5 pass the reason is again
truncation-classified (either the check-6 "Response appears truncated …"
message or check 7's "Response doesn't end with closing brace …" message);
and a candidate whose trimmed text ends in `\x7d` triggers no truncation
test and passes the trailing-`\x7d` shape check. -/
theorem C4_truncation_shape (raw : String) :
    (endsWithDanglingTok (jsTrim raw) = true →
      (validateGeminiResponse raw).isValid = false) ∧
    (endsWithDanglingTok (jsTrim raw) = true → rawChecks1to5Pass raw = true →
      strStartsWith (validateGeminiResponse raw).reason "Response appears truncated" = true) ∧
    (endsWithL ['\x7d'] (strL (jsTrim raw)) = false →
      (validateGeminiResponse raw).isValid = false) ∧
    (endsWithL ['\x7d'] (strL (jsTrim raw)) = false → rawChecks1to5Pass raw = true →
      (strStartsWith (validateGeminiResponse raw).reason "Response appears truncated" = true ∨
        strStartsWith (validateGeminiResponse raw).reason
          "Response doesn\x27t end with closing brace" = true)) ∧
    (endsWithL ['\x7d'] (strL (jsTrim raw)) = true →
      truncationTriggered (jsTrim raw) = false ∧
        endsWithL ['\x7d'] (jsTrimEndL (strL (jsTrim raw))) = true) := by
  refine ⟨?_, ?_, ?_, ?_, ?_⟩
  · intro h
    have htr : truncationTriggered (jsTrim raw) = true := by
      rw [truncationTriggered_trim]; exact h
    simp only [validateGeminiResponse]
    split
    · rfl
    split
    · rfl
    split
    · rfl
    split
    · rfl
    split
    · rfl
    rfl
  · intro h hp
    have htr : truncationTriggered (jsTrim raw) = true := by
      rw [truncationTriggered_trim]; exact h
    simp only [rawChecks1to5Pass, Bool.and_eq_true, Bool.not_eq_true',
      decide_eq_false_iff_not] at hp
    obtain ⟨⟨⟨⟨h1, h2⟩, h3⟩, h4⟩, h5⟩ := hp
    simp only [validateGeminiResponse]
    rw [if_neg (by simpa using h1), if_neg (by simp [h2]), if_neg (by simp [h3]),
      if_neg (by simpa using h4), if_neg (by simpa using h5), if_pos htr]
    rfl
  · intro h
    have hte : endsWithL ['\x7d'] (jsTrimEndL (strL (jsTrim raw))) = false := by
      show endsWithL _ (jsTrimEndL (jsTrimL (strL raw))) = false
      rw [jsTrimEndL_jsTrimL]
      exact h
    simp only [validateGeminiResponse]
    split
    · rfl
    split
    · rfl
    split
    · rfl
    split
    · rfl
    split
    · rfl
    split
    · rfl
    split
    · rfl
    · rename_i hcond
      rw [hte] at hcond
      exact absurd rfl hcond
  · intro h hp
    have hte : endsWithL ['\x7d'] (jsTrimEndL (strL (jsTrim raw))) = false := by
      show endsWithL _ (jsTrimEndL (jsTrimL (strL raw))) = false
      rw [jsTrimEndL_jsTrimL]
      exact h
    simp only [rawChecks1to5Pass, Bool.and_eq_true, Bool.not_eq_true',
      decide_eq_false_iff_not] at hp
    obtain ⟨⟨⟨⟨h1, h2⟩, h3⟩, h4⟩, h5⟩ := hp
    cases htr : truncationTriggered (jsTrim raw) with
    | true =>
      left
      simp only [validateGeminiResponse]
      rw [if_neg (by simpa using h1), if_neg (by simp [h2]), if_neg (by simp [h3]),
        if_neg (by simpa using h4), if_neg (by simpa using h5), if_pos htr]
      rfl
    | false =>
      right
      simp only [validateGeminiResponse]
      rw [if_neg (by simpa using h1), if_neg (by simp [h2]), if_neg (by simp [h3]),
        if_neg (by simpa using h4), if_neg (by simpa using h5),
        if_neg (by simp [htr]), if_pos (by rw [hte]; rfl)]
      rfl
  · intro h
    obtain ⟨t, ht⟩ : ∃ t, (strL (jsTrim raw)).reverse = '\x7d' :: t := by
      cases hr : (strL (jsTrim raw)).reverse with
      | nil => rw [endsWithL, hr] at h; cases h
      | cons c t =>
        rw [endsWithL, hr] at h
        simp only [List.reverse_cons, List.reverse_nil, List.nil_append, isPrefL,
          Bool.and_eq_true, decide_eq_true_eq] at h
        exact ⟨t, by rw [← h.1]⟩
    constructor
    · rw [truncationTriggered_trim]
      show danglingRevTest ((strL (jsTrim raw)).reverse) = false
      rw [ht]
      rfl
    · show endsWithL _ (jsTrimEndL (jsTrimL (strL raw))) = true
      rw [jsTrimEndL_jsTrimL]
      exact h

/-- C4 witness: a concrete candidate ending in a dangling comma is rejected
with a truncation reason; a concrete candidate ending in a letter (not `}`)
is rejected with a truncation-classified reason; and a concrete candidate
ending cleanly in `}` triggers no truncation test. -/
theorem C4_truncation_shape_witness :
    (validateGeminiResponse c4CommaInput).isValid = false ∧
    strStartsWith (validateGeminiResponse c4CommaInput).reason "Response appears truncated" = true ∧
    (validateGeminiResponse c4LetterInput).isValid = false ∧
    (strStartsWith (validateGeminiResponse c4LetterInput).reason
        "Response appears truncated" = true ∨
      strStartsWith (validateGeminiResponse c4LetterInput).reason
        "Response doesn\x27t end with closing brace" = true) ∧
    (truncationTriggered (jsTrim c4CleanInput) = false ∧
      endsWithL ['\x7d'] (jsTrimEndL (strL (jsTrim c4CleanInput))) = true) :=
  ⟨(C4_truncation_shape c4CommaInput).1 (by decide),
   (C4_truncation_shape c4CommaInput).2.1 (by decide) (by decide),
   (C4_truncation_shape c4LetterInput).2.2.1 (by decide),
   (C4_truncation_shape c4LetterInput).2.2.2.1 (by decide) (by decide),
   (C4_truncation_shape c4CleanInput).2.2.2.2 (by decide)⟩

/-- C5: on a component with one bare `useState(0)` call, one already
`React.`-prefixed hook call, and no other error patterns, `fixCode`
namespaces exactly the bare call; the input does match the Validation
Engine's bare-hook detector while the repaired output does not, and
validation of the repaired output does not report the missing-prefix
error. -/
theorem C5_bare_hook_namespaced :
    (GeminiCodeFixer.fixCode c5Input).fixedCode = c5Expected ∧
    AppValidator.bareHookScan [] (strL c5Input) = true ∧
    AppValidator.bareHookScan [] (strL c5Expected) = false ∧
    hookMsg ∉ (AppValidator.validate ((GeminiCodeFixer.fixCode c5Input).fixedCode)).errors :=
  ⟨by decide, by decide, by decide, by decide⟩

/-- C6: on `className={base ${isActive ? 'a' : 'b'}}` both repair pipelines
produce exactly the backtick-wrapped form, and the repaired result has no
`${` outside a backtick-delimited template literal. -/
theorem C6_template_literal_wrap :
    (GeminiCodeFixer.fixCode c6Input).fixedCode = c6Expected ∧
    CodeFixer.fixAll c6Input = c6Expected ∧
    hasInterpOutsideBackticks ((GeminiCodeFixer.fixCode c6Input).fixedCode) = false :=
  ⟨by decide, by decide, by decide⟩

/-- Each handler transition preserves "resolved implies detached". -/
theorem step_preserves_teardown (s : RuntimeTester.RTState) (e : RuntimeTester.RTEvent)
    (h : s.resolved = true → s.attached = false) :
    (RuntimeTester.step s e).resolved = true → (RuntimeTester.step s e).attached = false := by
  cases e <;> simp only [RuntimeTester.step] <;> (repeat' split) <;> simp_all

/-- The invariant "resolved implies detached" is preserved by any event
sequence. -/
theorem runRT_teardown (evs : List RuntimeTester.RTEvent) :
    ∀ s : RuntimeTester.RTState, (s.resolved = true → s.attached = false) →
      (RuntimeTester.runRT s evs).resolved = true →
        (RuntimeTester.runRT s evs).attached = false := by
  induction evs with
  | nil => intro s h; exact h
  | cons e rest ih =>
    intro s h
    exact ih (RuntimeTester.step s e) (step_preserves_teardown s e h)

/-- C7: starting from either setup outcome (iframe appended, or setup threw
and the failure result resolved with no iframe), after any sequence of
handler events — library loads, render completion, the wall-clock timeout,
poll ticks — if the promise has resolved then the sandbox iframe is no
longer attached to the document; this holds on every exit path and for any
number of sequential runs. -/
theorem C7_iframe_removed_before_resolve (init : RuntimeTester.RTState)
    (evs : List RuntimeTester.RTEvent)
    (hinit : init = RuntimeTester.setupOk ∨ init = RuntimeTester.setupFailed)
    (hres : (RuntimeTester.runRT init evs).resolved = true) :
    (RuntimeTester.runRT init evs).attached = false := by
  refine runRT_teardown evs init ?_ hres
  rcases hinit with rfl | rfl <;> decide

/-- C7 witness: the successful-render path and the timeout path both detach
the iframe by the time the promise resolves. -/
theorem C7_iframe_removed_before_resolve_witness :
    (RuntimeTester.runRT RuntimeTester.setupOk
      [.libsLoaded, .renderFinished true, .pollTick]).resolved = true ∧
    (RuntimeTester.runRT RuntimeTester.setupOk
      [.libsLoaded, .renderFinished true, .pollTick]).attached = false ∧
    (RuntimeTester.runRT RuntimeTester.setupOk [.timeoutFires]).attached = false :=
  ⟨by decide,
   C7_iframe_removed_before_resolve RuntimeTester.setupOk
     [.libsLoaded, .renderFinished true, .pollTick] (Or.inl rfl) (by decide),
   C7_iframe_removed_before_resolve RuntimeTester.setupOk
     [.timeoutFires] (Or.inl rfl) (by decide)⟩

/-- C8: when neither the localStorage override nor the environment variable
supplies a key (absent or empty), every entry point — create, fix, update —
returns the configuration error with zero network calls; and a non-empty
localStorage key takes precedence over the environment variable. -/
theorem C8_missing_key_no_network (localKey envKey : Option String) (prompt : String)
    (info : InfoAttempt) (g f u : List GenAttempt)
    (hl : localKey = none ∨ localKey = some "")
    (he : envKey = none ∨ envKey = some "") :
    generateAppFromPrompt localKey envKey prompt info g =
      ⟨Except.error apiKeyErrorMsg, 0⟩ ∧
    fixBrokenComponent localKey envKey f = ⟨Except.error apiKeyErrorMsg, 0⟩ ∧
    updateComponent localKey envKey u = ⟨Except.error apiKeyErrorMsg, 0⟩ ∧
    (∀ (user : String) (env : Option String), user ≠ "" →
      getApiKey (some user) env = Except.ok user) := by
  have hk : getApiKey localKey envKey = Except.error apiKeyErrorMsg := by
    rcases hl with rfl | rfl <;> rcases he with rfl | rfl <;> rfl
  refine ⟨?_, ?_, ?_, ?_⟩
  · simp only [generateAppFromPrompt, hk]
  · simp only [fixBrokenComponent, hk]
  · simp only [updateComponent, hk]
  · intro user env hu
    show (if user = "" then getApiKeyEnv env else Except.ok user) = Except.ok user
    rw [if_neg hu]

/-- C8 witness: both keys absent yields the configuration error on each
entry point with no network call, and a concrete localStorage key wins over
a concrete environment key. -/
theorem C8_missing_key_no_network_witness :
    generateAppFromPrompt none none "a counter" .failed [.noCandidate] =
      ⟨Except.error apiKeyErrorMsg, 0⟩ ∧
    fixBrokenComponent none (some "") [.noCandidate] = ⟨Except.error apiKeyErrorMsg, 0⟩ ∧
    getApiKey (some "local-key") (some "env-key") = Except.ok "local-key" :=
  ⟨(C8_missing_key_no_network none none "a counter" .failed [.noCandidate] [] []
      (Or.inl rfl) (Or.inl rfl)).1,
   (C8_missing_key_no_network none (some "") "x" .failed [] [.noCandidate] []
      (Or.inl rfl) (Or.inr rfl)).2.1,
   (C8_missing_key_no_network none none "x" .failed [] [] []
      (Or.inl rfl) (Or.inl rfl)).2.2.2 "local-key" (some "env-key") (by decide)⟩

/-- C9 counterexample: a component whose React import starts the *last* line
satisfies the failsafe's `m`-flag anchored test, so `cleanupGeneratedCode`
returns it unchanged and the returned text's first line is not the
React-import line. -/
theorem C9_midfile_import_counterexample :
    cleanupGeneratedCode c9Input = c9Input ∧
    ((splitNl (cleanupGeneratedCode c9Input)).head?.map ofL) ≠ some reactImportLine :=
  ⟨by decide, by decide⟩

theorem strL_append (a b : String) : strL (a ++ b) = strL a ++ strL b := by
  cases a; cases b; rfl

/-- Prepending the failsafe's import line satisfies the line-anchored
test for the React import, whatever follows. -/
theorem failsafe_lit (s : String) :
    hasLineAnchoredReactImport (strL ("import React from \x27react\x27;\n\n" ++ s)) = true := by
  rw [strL_append]
  rfl

/-- C9 (amended): every string returned by `cleanupGeneratedCode` contains a
line that begins with the React import (the failsafe's `m`-flag regex
`/^import\s+React\s+from\s+['"]react['"]/m` matches at *some* line start) —
but not necessarily as its first line: the import is only prepended when no
line-anchored import exists anywhere in the text. -/
theorem C9_output_has_react_import (code : String) :
    hasLineAnchoredReactImport (strL (cleanupGeneratedCode code)) = true := by
  show hasLineAnchoredReactImport (strL (reactImportFailsafe (cleanupPreFailsafe code))) = true
  by_cases h : hasLineAnchoredReactImport (strL (cleanupPreFailsafe code)) = true
  · rw [reactImportFailsafe, if_pos h]; exact h
  · rw [reactImportFailsafe, if_neg h]
    exact failsafe_lit _

theorem mem_ite_nil {α : Type} {c : Prop} [Decidable c] {l : List α} {e : α}
    (h : e ∈ (if c then l else [])) : e ∈ l := by
  split at h
  · exact h
  · exact absurd h (List.not_mem_nil e)

theorem mem_filterMap_if {α β : Type} {tbl : List α} {q : α → Bool} {g : α → β} {e : β}
    (h : e ∈ tbl.filterMap (fun x => if q x then some (g x) else none)) :
    e ∈ tbl.map g := by
  obtain ⟨x, hx, hval⟩ := List.mem_filterMap.mp h
  rw [List.mem_map]
  refine ⟨x, hx, ?_⟩
  split at hval
  · exact Option.some.inj hval
  · cases hval

/-- No message `AppValidator.validate` can place in `errors` starts with
`"Warning:"`: the network-call findings go only into `warnings`. -/
theorem validate_errors_no_warning (code : String) :
    ∀ e ∈ (AppValidator.validate code).errors, strStartsWith e "Warning:" = false := by
  intro e h
  simp only [AppValidator.validate, AppValidator.testRuntimeSyntax, AppValidator.checkJSXIssues,
    AppValidator.checkReactHooks, AppValidator.checkEventHandlers,
    AppValidator.sandboxedSyntaxCheck, List.mem_append] at h
  rcases h with (((((((h | h) | h) | h) | h) | h) | h) | h) | (((h | h) | (h | h)) | (h | h)) | h
  · rw [List.mem_singleton.mp (mem_ite_nil h)]; decide
  · have hm : e ∈ AppValidator.dangerousPatterns.map Prod.snd := mem_filterMap_if h
    fin_cases hm <;> decide
  · rw [List.mem_singleton.mp (mem_ite_nil h)]; decide
  · rw [List.mem_singleton.mp (mem_ite_nil h)]; decide
  · rw [List.mem_singleton.mp (mem_ite_nil h)]; decide
  · rw [List.mem_singleton.mp (mem_ite_nil h)]; decide
  · rw [List.mem_singleton.mp (mem_ite_nil h)]; decide
  · rw [List.mem_singleton.mp (mem_ite_nil h)]; decide
  · have hm : e ∈ AppValidator.voidElements.map
        (fun el => "<" ++ el ++ "> should be self-closing") := mem_filterMap_if h
    fin_cases hm <;> decide
  · rw [List.mem_singleton.mp (mem_ite_nil h)]; decide
  · rw [List.mem_singleton.mp (mem_ite_nil h)]; decide
  · rw [List.mem_singleton.mp (mem_ite_nil h)]; decide
  · rw [List.mem_singleton.mp (mem_ite_nil h)]; decide
  · rw [List.mem_singleton.mp (mem_ite_nil h)]; decide
  · rw [List.mem_singleton.mp (mem_ite_nil h)]; decide

/-- C10: for every input, `canSafelyRender` agrees with `validate`'s
`isValid`: since no error message starts with `"Warning:"`, the filter in
`canSafelyRender` removes nothing. -/
theorem C10_canSafelyRender_agrees (code : String) :
    AppValidator.canSafelyRender code = (AppValidator.validate code).isValid := by
  have hall : ∀ e ∈ (AppValidator.validate code).errors,
      (!strStartsWith e "Warning:") = true := by
    intro e he
    rw [validate_errors_no_warning code e he]
    rfl
  show ((AppValidator.validate code).errors.filter
      (fun e => !strStartsWith e "Warning:")).isEmpty = (AppValidator.validate code).isValid
  rw [List.filter_eq_self.mpr hall]
  rfl

end VV
